import Mathlib

/-!
Verification of the tube-mesh generator in `subsurf_cyl.py` (class `TubeMaker`,
method `execute`).  The Python code pre-allocates flat buffers
(`vs = [(0.0, 0.0, 0.0)] * len_vs`, `v_idcs = [(0, 0, 0, 0)] * len_loop_idcs`,
`vts = [(0.0, 0.0)] * len_vts`) and then fills them with indexed assignments
`buf[base + i] = value`.  We embed a buffer as a `List` and an assignment
sequence as a list of `(target index, value)` pairs applied with `List.set`,
in the exact order the source performs them.
-/

/-- Sequential indexed assignments into a pre-allocated buffer:
`applyWrites ws l` performs `l[w.1] = w.2` for each `w` in `ws`, in order.
(`List.set` leaves the list unchanged on an out-of-range index; the bounds
claims below are therefore stated on the write targets themselves.) -/
def applyWrites {α : Type} (ws : List (ℕ × α)) (l : List α) : List α :=
  ws.foldl (fun b w => b.set w.1 w.2) l

theorem applyWrites_cons {α : Type} (w : ℕ × α) (ws : List (ℕ × α)) (l : List α) :
    applyWrites (w :: ws) l = applyWrites ws (l.set w.1 w.2) := rfl

theorem applyWrites_append {α : Type} (a b : List (ℕ × α)) (l : List α) :
    applyWrites (a ++ b) l = applyWrites b (applyWrites a l) := by
  simp [applyWrites]

theorem length_applyWrites {α : Type} (ws : List (ℕ × α)) (l : List α) :
    (applyWrites ws l).length = l.length := by
  induction ws generalizing l with
  | nil => rfl
  | cons w ws ih => rw [applyWrites_cons, ih, List.length_set]

theorem mem_of_mem_applyWrites {α : Type} {x : α} {ws : List (ℕ × α)} {l : List α}
    (h : x ∈ applyWrites ws l) : x ∈ l ∨ ∃ w ∈ ws, x = w.2 := by
  induction ws generalizing l with
  | nil => exact Or.inl h
  | cons w ws ih =>
    rw [applyWrites_cons] at h
    rcases ih h with h' | h'
    · rcases List.mem_or_eq_of_mem_set h' with h'' | h''
      · exact Or.inl h''
      · exact Or.inr ⟨w, List.mem_cons_self w ws, h''⟩
    · rcases h' with ⟨w', hw', hx⟩
      exact Or.inr ⟨w', List.mem_cons_of_mem w hw', hx⟩

theorem getD_set_ne {α : Type} (l : List α) {n k : ℕ} (x d : α) (h : n ≠ k) :
    (l.set n x).getD k d = l.getD k d := by
  simp [List.getD_eq_getElem?_getD, List.getElem?_set_ne h]

theorem getD_set_self {α : Type} (l : List α) {k : ℕ} (x d : α) (h : k < l.length) :
    (l.set k x).getD k d = x := by
  simp [List.getD_eq_getElem?_getD, List.getElem?_set_self h]

/-- A read at an index no write targets passes through to the underlying buffer. -/
theorem getD_applyWrites_of_ne {α : Type} {ws : List (ℕ × α)} {l : List α} {k : ℕ} (d : α)
    (h : ∀ w ∈ ws, w.1 ≠ k) : (applyWrites ws l).getD k d = l.getD k d := by
  induction ws generalizing l with
  | nil => rfl
  | cons w ws ih =>
    rw [applyWrites_cons, ih (fun w' hw' => h w' (List.mem_cons_of_mem w hw')),
      getD_set_ne _ _ _ (h w (List.mem_cons_self w ws))]

/-- With pairwise-distinct write targets, a read at a written index returns
the written value. -/
theorem getD_applyWrites_of_mem {α : Type} {ws : List (ℕ × α)} {l : List α} {k : ℕ} {x : α}
    (d : α) (hp : ws.Pairwise (fun a b => a.1 ≠ b.1)) (hm : (k, x) ∈ ws)
    (hk : k < l.length) : (applyWrites ws l).getD k d = x := by
  induction ws generalizing l with
  | nil => cases hm
  | cons w ws ih =>
    rw [List.pairwise_cons] at hp
    rw [applyWrites_cons]
    rcases List.mem_cons.mp hm with h | h
    · have hne : ∀ w' ∈ ws, w'.1 ≠ k := by
        intro w' hw'
        have := hp.1 w' hw'
        rw [← h] at this
        exact fun he => this he.symm
      rw [getD_applyWrites_of_ne d hne, ← h]
      exact getD_set_self l x d hk
    · exact ih hp.2 h (by rw [List.length_set]; exact hk)

/-- Write sequence of a source loop `for i in range(0, n)` whose body
assigns, for every `(base, f)` in `rs`, `buf[base + i] = f i`
(several rings filled in one interleaved loop, as the source does). -/
def ringW {α : Type} (n : ℕ) (rs : List (ℕ × (ℕ → α))) : List (ℕ × α) :=
  (List.range n).flatMap (fun i => rs.map (fun r => (r.1 + i, r.2 i)))

theorem mem_ringW {α : Type} {n : ℕ} {rs : List (ℕ × (ℕ → α))} {r : ℕ × (ℕ → α)}
    (hr : r ∈ rs) {i : ℕ} (hi : i < n) : (r.1 + i, r.2 i) ∈ ringW n rs :=
  List.mem_flatMap.mpr ⟨i, List.mem_range.mpr hi, List.mem_map.mpr ⟨r, hr, rfl⟩⟩

theorem mem_ringW_elim {α : Type} {n : ℕ} {rs : List (ℕ × (ℕ → α))} {w : ℕ × α}
    (hw : w ∈ ringW n rs) : ∃ i < n, ∃ r ∈ rs, w = (r.1 + i, r.2 i) := by
  rcases List.mem_flatMap.mp hw with ⟨i, hi, hw'⟩
  rcases List.mem_map.mp hw' with ⟨r, hr, he⟩
  exact ⟨i, List.mem_range.mp hi, r, hr, he.symm⟩

theorem ringW_target_lb {α : Type} {n : ℕ} {rs : List (ℕ × (ℕ → α))} (lb : ℕ)
    (h : ∀ r ∈ rs, lb ≤ r.1) : ∀ w ∈ ringW n rs, lb ≤ w.1 := by
  intro w hw
  rcases mem_ringW_elim hw with ⟨i, _, r, hr, he⟩
  subst he
  exact Nat.le_add_right_of_le (h r hr)

theorem ringW_target_ub {α : Type} {n : ℕ} {rs : List (ℕ × (ℕ → α))} (ub : ℕ)
    (h : ∀ r ∈ rs, r.1 + n ≤ ub) : ∀ w ∈ ringW n rs, w.1 < ub := by
  intro w hw
  rcases mem_ringW_elim hw with ⟨i, hi, r, hr, he⟩
  subst he
  have := h r hr
  simp only
  omega

/-- Rings whose base offsets are separated by at least the ring size have
pairwise-distinct write targets. -/
theorem pairwise_ringW {α : Type} {s : ℕ} {rs : List (ℕ × (ℕ → α))}
    (hsep : rs.Pairwise (fun a b => a.1 + s ≤ b.1 ∨ b.1 + s ≤ a.1)) (n : ℕ) (hn : n ≤ s) :
    (ringW n rs).Pairwise (fun a b => a.1 ≠ b.1) := by
  have hsym : Symmetric (fun (a b : ℕ × (ℕ → α)) => a.1 + s ≤ b.1 ∨ b.1 + s ≤ a.1) :=
    fun a b h => h.symm
  revert hn
  induction n with
  | zero => intro _; simp [ringW]
  | succ m ih =>
    intro hn
    have hm : m ≤ s := Nat.le_of_succ_le hn
    have hrw : ringW (m + 1) rs = ringW m rs ++ rs.map (fun r => (r.1 + m, r.2 m)) := by
      simp [ringW, List.range_succ]
    rw [hrw]
    apply List.pairwise_append.mpr
    refine ⟨ih hm, ?_, ?_⟩
    · rw [List.pairwise_map]
      refine hsep.imp ?_
      intro a b hab
      simp only
      omega
    · intro x hx y hy
      rcases mem_ringW_elim hx with ⟨i, hi, r, hr, he⟩
      rcases List.mem_map.mp hy with ⟨r', hr', he'⟩
      subst he
      rw [← he']
      by_cases hrr : r = r'
      · subst hrr
        simp only
        omega
      · have := hsep.forall hsym hr hr' hrr
        simp only
        omega

/-!
## Data model

`TubeParameters` from the operator's inputs (`execute`, lines 129-140).
The shading and UV flags do not influence positions or face indices.
-/

inductive CapFaceType : Type
  | NGON
  | QUAD
  | TRI
  | NONE
deriving DecidableEq, Repr

structure TubeParams : Type where
  sectors : ℕ
  orientation : ℝ
  radius_btm : ℝ
  radius_top : ℝ
  depth : ℝ
  depth_offset : ℝ
  cap_face_type : CapFaceType
  edge_loop_fac : ℝ
  calc_uvs : Bool

/-- The declared lower bound of the `sectors` operator property (line 35). -/
def sectors_prop_min : ℕ := 3

/-- The declared lower bound of the `radius_btm`, `radius_top` and `depth`
operator properties (lines 51, 58, 65): the host clamps these inputs to
at least `0.001` before `execute` ever sees them. -/
noncomputable def radius_depth_prop_min : ℝ := 1 / 1000

/-- Parameter ranges as the spec states them for a valid call (sectors at
least 3, positive radii and depth, depth offset in `[-1, 1]`, edge loop
factor in `[0, 1]` -- the declared property range, lines 91-99). -/
def ValidParams (p : TubeParams) : Prop :=
  3 ≤ p.sectors ∧ 0 < p.radius_btm ∧ 0 < p.radius_top ∧ 0 < p.depth ∧
    -1 ≤ p.depth_offset ∧ p.depth_offset ≤ 1 ∧
    0 ≤ p.edge_loop_fac ∧ p.edge_loop_fac ≤ 1

/-- The four cap-style booleans of `execute` (lines 144-147). -/
structure Flags : Type where
  cap_is_none : Bool
  cap_is_ngon : Bool
  cap_is_quad : Bool
  cap_is_tri : Bool
deriving DecidableEq, Repr

/-- Lines 144-147: string comparisons of the cap face type. -/
def initFlags (c : CapFaceType) : Flags :=
  ⟨decide (c = CapFaceType.NONE), decide (c = CapFaceType.NGON),
    decide (c = CapFaceType.QUAD), decide (c = CapFaceType.TRI)⟩

/-- Lines 152-160: the cap-style feasibility downgrades, exactly as written.
Note that neither `if` tests the requested style: the first block runs for
any style whenever `sectors < 5` or `sectors` is odd, and the second
whenever `sectors < 4`. -/
def effFlags (sectors : ℕ) (c : CapFaceType) : Flags :=
  let f0 := initFlags c
  let f1 :=
    if sectors < 5 || sectors % 2 != 0 then
      { f0 with cap_is_quad := false,
                cap_is_ngon := if !f0.cap_is_none then true else f0.cap_is_ngon }
    else f0
  if sectors < 4 then
    { f1 with cap_is_tri := false,
              cap_is_ngon := if !f1.cap_is_none then true else f1.cap_is_ngon }
  else f1

/-- Line 164: `use_center_spoke = cap_is_tri or cap_is_quad`. -/
def Flags.use_center_spoke (f : Flags) : Bool :=
  f.cap_is_tri || f.cap_is_quad

/-- Line 165: `use_caps = cap_is_tri or cap_is_quad or cap_is_ngon`. -/
def Flags.use_caps (f : Flags) : Bool :=
  f.cap_is_tri || f.cap_is_quad || f.cap_is_ngon

/-!
## Index-layout planner, vertex space (lines 234-268)

Each offset is the previous offset advanced by the size of the group it
closes: `1` for a spoke, `sectors` for a ring, `0` when the group is
disabled.
-/

def v_idx_btm_spoke (_s : ℕ) (_f : Flags) (_el : Bool) : ℕ := 0

def v_idx_btm_fan (s : ℕ) (f : Flags) (el : Bool) : ℕ :=
  v_idx_btm_spoke s f el + (if f.use_center_spoke then 1 else 0)

def v_idx_btm_ctrl (s : ℕ) (f : Flags) (el : Bool) : ℕ :=
  v_idx_btm_fan s f el + (if el && f.use_caps then s else 0)

def v_idx_btm_edge (s : ℕ) (f : Flags) (el : Bool) : ℕ :=
  v_idx_btm_ctrl s f el + (if el && f.use_caps then s else 0)

def v_idx_side_lwr_ctrl (s : ℕ) (f : Flags) (el : Bool) : ℕ :=
  v_idx_btm_edge s f el + s

def v_idx_mid (s : ℕ) (f : Flags) (el : Bool) : ℕ :=
  v_idx_side_lwr_ctrl s f el + (if el then s else 0)

def v_idx_side_upp_ctrl (s : ℕ) (f : Flags) (el : Bool) : ℕ :=
  v_idx_mid s f el + (if el then s else 0)

def v_idx_top_edge (s : ℕ) (f : Flags) (el : Bool) : ℕ :=
  v_idx_side_upp_ctrl s f el + (if el then s else 0)

def v_idx_top_ctrl (s : ℕ) (f : Flags) (el : Bool) : ℕ :=
  v_idx_top_edge s f el + (if el then s else 0)

def v_idx_top_fan (s : ℕ) (f : Flags) (el : Bool) : ℕ :=
  v_idx_top_ctrl s f el + (if el then s else 0)

def v_idx_top_spoke (s : ℕ) (f : Flags) (el : Bool) : ℕ :=
  v_idx_top_fan s f el + (if f.use_caps || f.cap_is_none then s else 0)

/-- Line 266-268: total vertex-buffer length. -/
def len_vs (s : ℕ) (f : Flags) (el : Bool) : ℕ :=
  v_idx_top_spoke s f el + (if f.use_center_spoke then 1 else 0)

/-!
## Index-layout planner, face-loop space (lines 361-412)
-/

/-- Line 361: `half_sectors = sectors // 2`. -/
def half_sectors (s : ℕ) : ℕ := s / 2

/-- The per-cap face count of the `if cap_is_ngon / elif cap_is_quad /
elif cap_is_tri` chain, which the source spells out twice (lines 367-374
and 406-412).  `cap_is_ngon` is tested first. -/
def cap_faces_count (s : ℕ) (f : Flags) : ℕ :=
  if f.cap_is_ngon then 1
  else if f.cap_is_quad then half_sectors s
  else if f.cap_is_tri then s
  else 0

def loop_idx_btm_fan (_s : ℕ) (_f : Flags) (_el : Bool) : ℕ := 0

def loop_idx_btm_mid (s : ℕ) (f : Flags) (el : Bool) : ℕ :=
  loop_idx_btm_fan s f el + cap_faces_count s f

def loop_idx_btm_ctrl (s : ℕ) (f : Flags) (el : Bool) : ℕ :=
  loop_idx_btm_mid s f el + (if el && f.use_caps then s else 0)

def loop_idx_side_lwr_ctrl (s : ℕ) (f : Flags) (el : Bool) : ℕ :=
  loop_idx_btm_ctrl s f el + (if el && f.use_caps then s else 0)

def loop_idx_side_lwr (s : ℕ) (f : Flags) (el : Bool) : ℕ :=
  loop_idx_side_lwr_ctrl s f el + (if el then s else 0)

def loop_idx_side_upp (s : ℕ) (f : Flags) (el : Bool) : ℕ :=
  loop_idx_side_lwr s f el + (if el then s else 0)

def loop_idx_side_upp_ctrl (s : ℕ) (f : Flags) (el : Bool) : ℕ :=
  loop_idx_side_upp s f el + (if el then s else 0)

def loop_idx_top_ctrl (s : ℕ) (f : Flags) (el : Bool) : ℕ :=
  loop_idx_side_upp_ctrl s f el + (if el && f.use_caps then s else 0)

def loop_idx_top_mid (s : ℕ) (f : Flags) (el : Bool) : ℕ :=
  loop_idx_top_ctrl s f el + (if el && f.use_caps then s else 0)

/-- Line 404: `loop_idx_top_fan = loop_idx_top_mid + sectors`
(the unconditional `sectors` is the side band written at
`loop_idx_side_lwr_ctrl` in both branches of the face synthesizer). -/
def loop_idx_top_fan (s : ℕ) (f : Flags) (el : Bool) : ℕ :=
  loop_idx_top_mid s f el + s

/-- Lines 406-412: total face-buffer length. -/
def len_loop_idcs (s : ℕ) (f : Flags) (el : Bool) : ℕ :=
  loop_idx_top_fan s f el + cap_faces_count s f

/-!
## Index-layout planner, UV space (lines 542-595)

The source sets each disabled offset to the sentinel `-1`, never read;
we model a disabled offset as `0`, equally unread.
-/

/-- Lines 543-551: total UV-coordinate buffer length. -/
def len_vts (s : ℕ) (f : Flags) (el : Bool) : ℕ :=
  (s + 1) * 2 + (if el then (s + 1) * 3 else 0) +
    (if f.use_caps then
      s * 2 + (if el then s * 4 else 0) + (if f.use_center_spoke then 2 else 0)
    else 0)

def vt_idx_btm_strip (_s : ℕ) (_f : Flags) (_el : Bool) : ℕ := 0

def vt_idx_top_strip (s : ℕ) (_f : Flags) (_el : Bool) : ℕ := s + 1

def vt_idx_side_lwr_ctrl (s : ℕ) (_f : Flags) (el : Bool) : ℕ :=
  if el then (s + 1) * 2 else 0

def vt_idx_mid_strip (s : ℕ) (_f : Flags) (el : Bool) : ℕ :=
  if el then (s + 1) * 3 else 0

def vt_idx_side_upp_ctrl (s : ℕ) (_f : Flags) (el : Bool) : ℕ :=
  if el then (s + 1) * 4 else 0

def vt_idx_btm_edge (s : ℕ) (f : Flags) (el : Bool) : ℕ :=
  if f.use_caps then (if el then (s + 1) * 5 else (s + 1) * 2) else 0

def vt_idx_btm_ctrl (s : ℕ) (f : Flags) (el : Bool) : ℕ :=
  if f.use_caps && el then (s + 1) * 5 + s else 0

/-- Lines 580-591: without edge loops the fan aliases the edge ring. -/
def vt_idx_btm_fan (s : ℕ) (f : Flags) (el : Bool) : ℕ :=
  if f.use_caps then (if el then (s + 1) * 5 + s * 2 else (s + 1) * 2) else 0

def vt_idx_top_edge (s : ℕ) (f : Flags) (el : Bool) : ℕ :=
  if f.use_caps then (if el then (s + 1) * 5 + s * 3 else (s + 1) * 2 + s) else 0

def vt_idx_top_ctrl (s : ℕ) (f : Flags) (el : Bool) : ℕ :=
  if f.use_caps && el then (s + 1) * 5 + s * 4 else 0

def vt_idx_top_fan (s : ℕ) (f : Flags) (el : Bool) : ℕ :=
  if f.use_caps then (if el then (s + 1) * 5 + s * 5 else (s + 1) * 2 + s) else 0

def vt_idx_btm_spoke (s : ℕ) (f : Flags) (el : Bool) : ℕ :=
  if f.use_caps && f.use_center_spoke then len_vts s f el - 2 else 0

def vt_idx_top_spoke (s : ℕ) (f : Flags) (el : Bool) : ℕ :=
  if f.use_caps && f.use_center_spoke then len_vts s f el - 1 else 0

/-!
## Parameter-level flags and geometry scalars (lines 162-230)
-/

/-- Effective flags for a parameter set (lines 144-160). -/
def flagsP (p : TubeParams) : Flags := effFlags p.sectors p.cap_face_type

/-- Lines 166-167: `use_edge_loops = edge_loop_fac > 0.0 and edge_loop_fac < 1.0`. -/
noncomputable def use_edge_loops (p : TubeParams) : Bool :=
  if 0 < p.edge_loop_fac ∧ p.edge_loop_fac < 1 then true else false

/-- Line 172: `offset_fac = depth_offset * 0.5 + 0.5`. -/
noncomputable def offset_fac (p : TubeParams) : ℝ := p.depth_offset * 0.5 + 0.5

/-- Line 173. -/
noncomputable def half_depth (p : TubeParams) : ℝ := p.depth * 0.5

/-- Lines 174-175: linear interpolation between `-half_depth` and `half_depth`. -/
noncomputable def vz_mid (p : TubeParams) : ℝ :=
  (1 - offset_fac p) * (-(half_depth p)) + offset_fac p * half_depth p

/-- Line 176. -/
noncomputable def vz_btm (p : TubeParams) : ℝ := vz_mid p - half_depth p

/-- Line 177. -/
noncomputable def vz_top (p : TubeParams) : ℝ := vz_mid p + half_depth p

/-- Lines 188-192: the aspect ratios stay `1.0` unless caps are used. -/
noncomputable def aspect_ratio_btm (p : TubeParams) : ℝ :=
  if (flagsP p).use_caps then p.radius_btm / p.depth else 1

noncomputable def aspect_ratio_top (p : TubeParams) : ℝ :=
  if (flagsP p).use_caps then p.radius_top / p.depth else 1

/-- Lines 195-199 (`t` is the alias of `edge_loop_fac`, line 181). -/
noncomputable def t_btm (p : TubeParams) : ℝ :=
  if p.radius_btm < p.depth then p.edge_loop_fac * aspect_ratio_btm p else p.edge_loop_fac

/-- Lines 196-199: in both branches `u_btm = 1 - t_btm`. -/
noncomputable def u_btm (p : TubeParams) : ℝ := 1 - t_btm p

noncomputable def t_top (p : TubeParams) : ℝ :=
  if p.radius_top < p.depth then p.edge_loop_fac * aspect_ratio_top p else p.edge_loop_fac

noncomputable def u_top (p : TubeParams) : ℝ := 1 - t_top p

/-- Lines 208-212: control factors for the end-cap fans. -/
noncomputable def t_fan_btm (p : TubeParams) : ℝ :=
  if p.depth ≤ p.radius_btm then p.edge_loop_fac / aspect_ratio_btm p else p.edge_loop_fac

noncomputable def u_fan_btm (p : TubeParams) : ℝ := 1 - t_fan_btm p

noncomputable def t_fan_top (p : TubeParams) : ℝ :=
  if p.depth ≤ p.radius_top then p.edge_loop_fac / aspect_ratio_top p else p.edge_loop_fac

noncomputable def u_fan_top (p : TubeParams) : ℝ := 1 - t_fan_top p

/-- Lines 222-229: the cached `(cos theta, sin theta)` table,
`theta = orientation + i * (tau / sectors)`. -/
noncomputable def cartesian (p : TubeParams) (i : ℕ) : ℝ × ℝ :=
  (Real.cos (p.orientation + i * (2 * Real.pi / p.sectors)),
    Real.sin (p.orientation + i * (2 * Real.pi / p.sectors)))

/-- Line 293. -/
noncomputable def radius_mid (p : TubeParams) : ℝ := (p.radius_btm + p.radius_top) * 0.5

/-- Line 295: height of the lower side control loop. -/
noncomputable def side_lwr_ctrl_z (p : TubeParams) : ℝ :=
  u_btm p * vz_btm p + t_btm p * vz_mid p

/-- Line 296. -/
noncomputable def side_upp_ctrl_z (p : TubeParams) : ℝ :=
  u_top p * vz_top p + t_top p * vz_mid p

/-- Line 298. -/
noncomputable def radius_side_lwr_ctrl (p : TubeParams) : ℝ :=
  u_btm p * p.radius_btm + t_btm p * radius_mid p

/-- Line 299. -/
noncomputable def radius_side_upp_ctrl (p : TubeParams) : ℝ :=
  u_top p * p.radius_top + t_top p * radius_mid p

/-- Line 324. -/
noncomputable def radius_fan_btm (p : TubeParams) : ℝ := p.radius_btm * 0.5

/-- Lines 325-326. -/
noncomputable def radius_cap_lwr_ctrl (p : TubeParams) : ℝ :=
  u_fan_btm p * p.radius_btm + t_fan_btm p * radius_fan_btm p

/-- Line 328. -/
noncomputable def radius_fan_top (p : TubeParams) : ℝ := p.radius_top * 0.5

/-- Lines 329-330. -/
noncomputable def radius_cap_upp_ctrl (p : TubeParams) : ℝ :=
  u_fan_top p * p.radius_top + t_fan_top p * radius_fan_top p

/-!
## Geometry synthesizer (lines 269-357)
-/

/-- The assignments into `vs`, in source order: central spokes (272-274),
the bottom/top edge rings (277-290), then with edge loops the three side
rings (303-321) and, with caps as well, the four cap rings (334-357). -/
noncomputable def vWrites (p : TubeParams) : List (ℕ × (ℝ × ℝ × ℝ)) :=
  let s := p.sectors
  let f := flagsP p
  let el := use_edge_loops p
  (if f.use_center_spoke then
    [(v_idx_btm_spoke s f el, (0, 0, vz_btm p)),
      (v_idx_top_spoke s f el, (0, 0, vz_top p))]
  else []) ++
  ringW s
    [(v_idx_btm_edge s f el, fun i =>
        ((cartesian p i).1 * p.radius_btm, (cartesian p i).2 * p.radius_btm, vz_btm p)),
      (v_idx_top_edge s f el, fun i =>
        ((cartesian p i).1 * p.radius_top, (cartesian p i).2 * p.radius_top, vz_top p))] ++
  (if el then
    ringW s
      [(v_idx_side_lwr_ctrl s f el, fun i =>
          ((cartesian p i).1 * radius_side_lwr_ctrl p,
            (cartesian p i).2 * radius_side_lwr_ctrl p, side_lwr_ctrl_z p)),
        (v_idx_mid s f el, fun i =>
          ((cartesian p i).1 * radius_mid p, (cartesian p i).2 * radius_mid p, vz_mid p)),
        (v_idx_side_upp_ctrl s f el, fun i =>
          ((cartesian p i).1 * radius_side_upp_ctrl p,
            (cartesian p i).2 * radius_side_upp_ctrl p, side_upp_ctrl_z p))] ++
    (if f.use_caps then
      ringW s
        [(v_idx_btm_fan s f el, fun i =>
            ((cartesian p i).1 * radius_fan_btm p,
              (cartesian p i).2 * radius_fan_btm p, vz_btm p)),
          (v_idx_btm_ctrl s f el, fun i =>
            ((cartesian p i).1 * radius_cap_lwr_ctrl p,
              (cartesian p i).2 * radius_cap_lwr_ctrl p, vz_btm p)),
          (v_idx_top_ctrl s f el, fun i =>
            ((cartesian p i).1 * radius_cap_upp_ctrl p,
              (cartesian p i).2 * radius_cap_upp_ctrl p, vz_top p)),
          (v_idx_top_fan s f el, fun i =>
            ((cartesian p i).1 * radius_fan_top p,
              (cartesian p i).2 * radius_fan_top p, vz_top p))]
    else [])
  else [])

/-- Line 269: `vs = [(0.0, 0.0, 0.0)] * len_vs`, then all assignments. -/
noncomputable def mkVs (p : TubeParams) : List (ℝ × ℝ × ℝ) :=
  applyWrites (vWrites p)
    (List.replicate (len_vs p.sectors (flagsP p) (use_edge_loops p)) (0, 0, 0))

/-!
## Face synthesizer (lines 414-519)

A face is a list of vertex indices.  The buffer is pre-filled with
`(0, 0, 0, 0)` (line 414).
-/

/-- Lines 416-451: the cap faces.  `cap_is_tri` is tested first here
(the offset plan in `cap_faces_count` tests `cap_is_ngon` first). -/
def fan_writes (s : ℕ) (f : Flags) (el : Bool) : List (ℕ × List ℕ) :=
  if f.cap_is_tri then
    ringW s
      [(loop_idx_btm_fan s f el, fun i =>
          [v_idx_btm_spoke s f el, v_idx_btm_fan s f el + (i + 1) % s,
            v_idx_btm_fan s f el + i]),
        (loop_idx_top_fan s f el, fun i =>
          [v_idx_top_spoke s f el, v_idx_top_fan s f el + i,
            v_idx_top_fan s f el + (i + 1) % s])]
  else if f.cap_is_quad then
    ringW (half_sectors s)
      [(loop_idx_btm_fan s f el, fun h =>
          [v_idx_btm_spoke s f el, v_idx_btm_fan s f el + (h + h + 2) % s,
            v_idx_btm_fan s f el + (h + h + 1) % s, v_idx_btm_fan s f el + (h + h)]),
        (loop_idx_top_fan s f el, fun h =>
          [v_idx_top_spoke s f el, v_idx_top_fan s f el + (h + h),
            v_idx_top_fan s f el + (h + h + 1) % s, v_idx_top_fan s f el + (h + h + 2) % s])]
  else if f.cap_is_ngon then
    [(loop_idx_btm_fan s f el,
        (List.range s).map (fun i => v_idx_btm_fan s f el + (s - 1 - (i + s - 1) % s))),
      (loop_idx_top_fan s f el,
        (List.range s).map (fun i => v_idx_top_fan s f el + i))]
  else []

/-- Lines 454-480: the four cap control bands (only with edge loops and caps). -/
def band_writes (s : ℕ) (f : Flags) (el : Bool) : List (ℕ × List ℕ) :=
  ringW s
    [(loop_idx_btm_mid s f el, fun i =>
        [v_idx_btm_fan s f el + i, v_idx_btm_fan s f el + (i + 1) % s,
          v_idx_btm_ctrl s f el + (i + 1) % s, v_idx_btm_ctrl s f el + i]),
      (loop_idx_btm_ctrl s f el, fun i =>
        [v_idx_btm_ctrl s f el + i, v_idx_btm_ctrl s f el + (i + 1) % s,
          v_idx_btm_edge s f el + (i + 1) % s, v_idx_btm_edge s f el + i]),
      (loop_idx_top_ctrl s f el, fun i =>
        [v_idx_top_edge s f el + i, v_idx_top_edge s f el + (i + 1) % s,
          v_idx_top_ctrl s f el + (i + 1) % s, v_idx_top_ctrl s f el + i]),
      (loop_idx_top_mid s f el, fun i =>
        [v_idx_top_ctrl s f el + i, v_idx_top_ctrl s f el + (i + 1) % s,
          v_idx_top_fan s f el + (i + 1) % s, v_idx_top_fan s f el + i])]

/-- Lines 483-509: the four side bands of the edge-loop branch. -/
def side_writes_el (s : ℕ) (f : Flags) (el : Bool) : List (ℕ × List ℕ) :=
  ringW s
    [(loop_idx_side_lwr_ctrl s f el, fun i =>
        [v_idx_btm_edge s f el + i, v_idx_btm_edge s f el + (i + 1) % s,
          v_idx_side_lwr_ctrl s f el + (i + 1) % s, v_idx_side_lwr_ctrl s f el + i]),
      (loop_idx_side_lwr s f el, fun i =>
        [v_idx_side_lwr_ctrl s f el + i, v_idx_side_lwr_ctrl s f el + (i + 1) % s,
          v_idx_mid s f el + (i + 1) % s, v_idx_mid s f el + i]),
      (loop_idx_side_upp s f el, fun i =>
        [v_idx_mid s f el + i, v_idx_mid s f el + (i + 1) % s,
          v_idx_side_upp_ctrl s f el + (i + 1) % s, v_idx_side_upp_ctrl s f el + i]),
      (loop_idx_side_upp_ctrl s f el, fun i =>
        [v_idx_side_upp_ctrl s f el + i, v_idx_side_upp_ctrl s f el + (i + 1) % s,
          v_idx_top_edge s f el + (i + 1) % s, v_idx_top_edge s f el + i])]

/-- Lines 510-519: the single side band of the no-edge-loop branch. -/
def side_writes_noel (s : ℕ) (f : Flags) (el : Bool) : List (ℕ × List ℕ) :=
  ringW s
    [(loop_idx_side_lwr_ctrl s f el, fun i =>
        [v_idx_btm_edge s f el + i, v_idx_btm_edge s f el + (i + 1) % s,
          v_idx_top_edge s f el + (i + 1) % s, v_idx_top_edge s f el + i])]

/-- All assignments into `v_idcs`, in source order (caps, then bands/sides). -/
def face_writes (s : ℕ) (f : Flags) (el : Bool) : List (ℕ × List ℕ) :=
  fan_writes s f el ++
    (if el then
      (if f.use_caps then band_writes s f el else []) ++ side_writes_el s f el
    else side_writes_noel s f el)

/-- Line 414: `v_idcs = [(0, 0, 0, 0)] * len_loop_idcs`, then all assignments. -/
def mkFaces (s : ℕ) (f : Flags) (el : Bool) : List (List ℕ) :=
  applyWrites (face_writes s f el) (List.replicate (len_loop_idcs s f el) [0, 0, 0, 0])

/-- Parameter-level face buffer. -/
noncomputable def mkFacesP (p : TubeParams) : List (List ℕ) :=
  mkFaces p.sectors (flagsP p) (use_edge_loops p)

/-!
## UV synthesizer (lines 537-690), run when `calc_uvs` is requested
-/

/-- Lines 603-605: `vts_min_y = 0.0`, raised to `0.5` when caps are used. -/
noncomputable def vts_min_y (p : TubeParams) : ℝ :=
  if (flagsP p).use_caps then 0.5 else 0

/-- Line 606. -/
def vts_max_y : ℝ := 1

/-- Line 612: `sectors_to_uv = 1.0 / sectors`. -/
noncomputable def sectors_to_uv (p : TubeParams) : ℝ := 1 / p.sectors

/-- Line 619. -/
noncomputable def vts_mid_y (p : TubeParams) : ℝ := (vts_min_y p + vts_max_y) * 0.5

/-- Line 620. -/
noncomputable def vt_side_lwr_ctrl_y (p : TubeParams) : ℝ :=
  u_btm p * vts_min_y p + t_btm p * vts_mid_y p

/-- Line 621. -/
noncomputable def vt_side_upp_ctrl_y (p : TubeParams) : ℝ :=
  u_top p * vts_max_y + t_top p * vts_mid_y p

/-- Line 630: the cap disk radius in UV space. -/
def vts_rad : ℝ := 0.25

/-- Lines 633-637: the two cap disk centers (Blender UV convention). -/
def vt_btm_center_x : ℝ := 0.75

def vt_btm_center_y : ℝ := 0.25

def vt_top_center_x : ℝ := 0.25

def vt_top_center_y : ℝ := 0.25

/-- Line 662. -/
noncomputable def vts_radius_mid : ℝ := vts_rad * 0.5

/-- Lines 663-664. -/
noncomputable def vts_radius_cap_lwr_ctrl (p : TubeParams) : ℝ :=
  u_fan_btm p * vts_rad + t_fan_btm p * vts_radius_mid

/-- Lines 665-666. -/
noncomputable def vts_radius_cap_upp_ctrl (p : TubeParams) : ℝ :=
  u_fan_top p * vts_rad + t_fan_top p * vts_radius_mid

/-- Lines 613-616: the two side strips, over `sectors + 1` columns. -/
noncomputable def uv_strip_writes (p : TubeParams) : List (ℕ × (ℝ × ℝ)) :=
  ringW (p.sectors + 1)
    [(vt_idx_btm_strip p.sectors (flagsP p) (use_edge_loops p), fun j =>
        (j * sectors_to_uv p, vts_min_y p)),
      (vt_idx_top_strip p.sectors (flagsP p) (use_edge_loops p), fun j =>
        (j * sectors_to_uv p, vts_max_y))]

/-- Lines 618-627: the three edge-loop strips. -/
noncomputable def uv_loop_strip_writes (p : TubeParams) : List (ℕ × (ℝ × ℝ)) :=
  if use_edge_loops p then
    ringW (p.sectors + 1)
      [(vt_idx_side_lwr_ctrl p.sectors (flagsP p) (use_edge_loops p), fun j =>
          (j * sectors_to_uv p, vt_side_lwr_ctrl_y p)),
        (vt_idx_mid_strip p.sectors (flagsP p) (use_edge_loops p), fun j =>
          (j * sectors_to_uv p, vts_mid_y p)),
        (vt_idx_side_upp_ctrl p.sectors (flagsP p) (use_edge_loops p), fun j =>
          (j * sectors_to_uv p, vt_side_upp_ctrl_y p))]
  else []

/-- Lines 640-646: the two cap-center spokes. -/
noncomputable def uv_spoke_writes (p : TubeParams) : List (ℕ × (ℝ × ℝ)) :=
  if (flagsP p).use_center_spoke then
    [(vt_idx_btm_spoke p.sectors (flagsP p) (use_edge_loops p),
        (vt_btm_center_x, vt_btm_center_y)),
      (vt_idx_top_spoke p.sectors (flagsP p) (use_edge_loops p),
        (vt_top_center_x, vt_top_center_y))]
  else []

/-- Lines 648-659: the two cap rim rings, radius `vts_rad` disks around the
cap centers. -/
noncomputable def uv_rim_writes (p : TubeParams) : List (ℕ × (ℝ × ℝ)) :=
  ringW p.sectors
    [(vt_idx_btm_edge p.sectors (flagsP p) (use_edge_loops p), fun i =>
        (vt_btm_center_x + (cartesian p i).1 * vts_rad,
          vt_btm_center_y + (cartesian p i).2 * vts_rad)),
      (vt_idx_top_edge p.sectors (flagsP p) (use_edge_loops p), fun i =>
        (vt_top_center_x + (cartesian p i).1 * vts_rad,
          vt_top_center_y + (cartesian p i).2 * vts_rad))]

/-- Lines 661-690: the four cap control rings (edge loops only). -/
noncomputable def uv_cap_ctrl_writes (p : TubeParams) : List (ℕ × (ℝ × ℝ)) :=
  if use_edge_loops p then
    ringW p.sectors
      [(vt_idx_btm_fan p.sectors (flagsP p) (use_edge_loops p), fun i =>
          (vt_btm_center_x + (cartesian p i).1 * vts_radius_mid,
            vt_btm_center_y + (cartesian p i).2 * vts_radius_mid)),
        (vt_idx_btm_ctrl p.sectors (flagsP p) (use_edge_loops p), fun i =>
          (vt_btm_center_x + (cartesian p i).1 * vts_radius_cap_lwr_ctrl p,
            vt_btm_center_y + (cartesian p i).2 * vts_radius_cap_lwr_ctrl p)),
        (vt_idx_top_ctrl p.sectors (flagsP p) (use_edge_loops p), fun i =>
          (vt_top_center_x + (cartesian p i).1 * vts_radius_cap_upp_ctrl p,
            vt_top_center_y + (cartesian p i).2 * vts_radius_cap_upp_ctrl p)),
        (vt_idx_top_fan p.sectors (flagsP p) (use_edge_loops p), fun i =>
          (vt_top_center_x + (cartesian p i).1 * vts_radius_mid,
            vt_top_center_y + (cartesian p i).2 * vts_radius_mid))]
  else []

/-- Lines 629-690: the whole cap block, present only with caps. -/
noncomputable def uv_cap_writes (p : TubeParams) : List (ℕ × (ℝ × ℝ)) :=
  if (flagsP p).use_caps then
    uv_spoke_writes p ++ uv_rim_writes p ++ uv_cap_ctrl_writes p
  else []

/-- The assignments into `vts`, in source order: the side strips (613-616),
the edge-loop strips (623-627), then the cap block (629-690). -/
noncomputable def uvWrites (p : TubeParams) : List (ℕ × (ℝ × ℝ)) :=
  uv_strip_writes p ++ uv_loop_strip_writes p ++ uv_cap_writes p

/-- Line 597: `vts = [(0.0, 0.0)] * len_vts`, then all assignments. -/
noncomputable def mkVts (p : TubeParams) : List (ℝ × ℝ) :=
  applyWrites (uvWrites p)
    (List.replicate (len_vts p.sectors (flagsP p) (use_edge_loops p)) (0, 0))

/-!
## Helper lemmas
-/

theorem use_edge_loops_false (p : TubeParams)
    (h : p.edge_loop_fac ≤ 0 ∨ 1 ≤ p.edge_loop_fac) : use_edge_loops p = false := by
  unfold use_edge_loops
  rw [if_neg]
  rintro ⟨h0, h1⟩
  rcases h with h | h
  · linarith
  · linarith

theorem use_edge_loops_true (p : TubeParams)
    (h0 : 0 < p.edge_loop_fac) (h1 : p.edge_loop_fac < 1) : use_edge_loops p = true := by
  unfold use_edge_loops
  rw [if_pos ⟨h0, h1⟩]

theorem effFlags_none (s : ℕ) : effFlags s CapFaceType.NONE = ⟨true, false, false, false⟩ := by
  unfold effFlags initFlags
  split_ifs <;> rfl

/-- For every sector count and requested style, the effective flags have caps
or an explicit NONE (so line 261-262 always advances `v_idx_top_spoke`). -/
theorem effFlags_caps_or_none (s : ℕ) (c : CapFaceType) :
    ((effFlags s c).use_caps || (effFlags s c).cap_is_none) = true := by
  unfold effFlags initFlags Flags.use_caps
  cases c <;> split_ifs <;> rfl

/-!
## Claim C1
-/

/-- Claim C1: "every write during vertex and face synthesis lands inside the
pre-allocated buffer" -- refuted by the code at the valid input
`sectors = 5, capStyle = TRI, edgeLoopFactor = 0`: the face buffer is
allocated with 7 slots (the NGON layout), yet the TRI cap synthesizer
emits writes with targets up to 10 (an `IndexError` in Python). -/
theorem c1_face_write_out_of_bounds :
    len_loop_idcs 5 (effFlags 5 CapFaceType.TRI) false = 7 ∧
    (∃ w ∈ face_writes 5 (effFlags 5 CapFaceType.TRI) false,
      len_loop_idcs 5 (effFlags 5 CapFaceType.TRI) false ≤ w.1) := by
  decide

/-!
## Claim C2
-/

/-- Claim C2: the QUAD downgrade rule fires even when the requested style is
TRI.  At `sectors = 5, capStyle = TRI` the code leaves `cap_is_tri = true`
but also sets `cap_is_ngon = true`; the face-loop plan then allocates one
cap face per cap (`cap_faces_count = 1`, the NGON branch wins at lines
367-374) while the face synthesizer emits `sectors` triangles per cap
(`cap_is_tri` wins at line 417), 10 writes in all. -/
theorem c2_downgrade_rule_misapplied :
    (effFlags 5 CapFaceType.TRI).cap_is_tri = true ∧
    (effFlags 5 CapFaceType.TRI).cap_is_ngon = true ∧
    (effFlags 5 CapFaceType.TRI).use_center_spoke = true ∧
    cap_faces_count 5 (effFlags 5 CapFaceType.TRI) = 1 ∧
    (fan_writes 5 (effFlags 5 CapFaceType.TRI) false).length = 2 * 5 := by
  decide

/-!
## Claim C4
-/

/-- A parameter set violating every precondition the claim lists:
`sectors = 2 < 3`, `radius_btm = -1 ≤ 0`, `depth = -1 ≤ 0`. -/
noncomputable def p_invalid : TubeParams :=
  ⟨2, 0, -1, 1 / 2, -1, 0, CapFaceType.QUAD, 0, false⟩

/-- Claim C4 counterexample: `execute` contains no precondition check, so an
invalid parameter set is NOT rejected -- generation runs to completion and
produces a (degenerate) mesh with 4 vertices and 4 faces. -/
theorem c4_counterexample_no_rejection :
    ¬ ValidParams p_invalid ∧
    (mkVs p_invalid).length = 4 ∧
    (mkFacesP p_invalid).length = 4 := by
  have hel : use_edge_loops p_invalid = false :=
    use_edge_loops_false _ (Or.inl (le_refl 0))
  refine ⟨?_, ?_, ?_⟩
  · intro hv
    have := hv.1
    norm_num [p_invalid] at this
  · rw [mkVs, length_applyWrites, List.length_replicate, hel]
    decide
  · rw [mkFacesP, hel]
    decide

/-- Claim C4 amended: the generation body performs no precondition check and
never rejects -- for any sector count at least 1 and any cap style it
produces full position and face buffers; values below the documented bounds
are instead kept out by the operator property declarations, whose minima
are `sectors = 3` and `radius/depth = 0.001`. -/
theorem c4_amended_no_precondition_check (s : ℕ) (c : CapFaceType) (el : Bool)
    (hs : 1 ≤ s) :
    sectors_prop_min = 3 ∧ radius_depth_prop_min = 1 / 1000 ∧
    0 < len_vs s (effFlags s c) el ∧
    (mkFaces s (effFlags s c) el).length = len_loop_idcs s (effFlags s c) el := by
  refine ⟨rfl, rfl, ?_, ?_⟩
  · unfold len_vs v_idx_top_spoke v_idx_top_fan v_idx_top_ctrl v_idx_top_edge
      v_idx_side_upp_ctrl v_idx_mid v_idx_side_lwr_ctrl v_idx_btm_edge
      v_idx_btm_ctrl v_idx_btm_fan v_idx_btm_spoke
    split_ifs <;> omega
  · rw [mkFaces, length_applyWrites, List.length_replicate]

theorem c4_amended_no_precondition_check_witness :
    1 ≤ 2 ∧
    (sectors_prop_min = 3 ∧ radius_depth_prop_min = 1 / 1000 ∧
      0 < len_vs 2 (effFlags 2 CapFaceType.QUAD) false ∧
      (mkFaces 2 (effFlags 2 CapFaceType.QUAD) false).length =
        len_loop_idcs 2 (effFlags 2 CapFaceType.QUAD) false) :=
  ⟨by decide, c4_amended_no_precondition_check 2 CapFaceType.QUAD false (by decide)⟩

/-!
## Claim C5
-/

/-- The round-trip scenario parameters. -/
noncomputable def p_round_trip : TubeParams :=
  ⟨8, 0, 1 / 2, 1 / 2, 3 / 2, 0, CapFaceType.QUAD, 0, false⟩

/-- Claim C5: for `sectors=8, radii=0.5, depth=1.5, depthOffset=0,
capStyle=QUAD, edgeLoopFactor=0` the output has 18 positions (bottom spoke
at 0, two 8-vertex edge rings at 1 and 9, top spoke at 17) and 16 faces,
all quads: 4 bottom-cap faces (the ones using spoke index 0), 8 side faces
(using neither spoke), 4 top-cap faces (using spoke index 17). -/
theorem c5_round_trip :
    (mkVs p_round_trip).length = 18 ∧
    v_idx_btm_spoke 8 (flagsP p_round_trip) false = 0 ∧
    v_idx_btm_edge 8 (flagsP p_round_trip) false = 1 ∧
    v_idx_top_edge 8 (flagsP p_round_trip) false = 9 ∧
    v_idx_top_spoke 8 (flagsP p_round_trip) false = 17 ∧
    (mkFacesP p_round_trip).length = 16 ∧
    (∀ fc ∈ mkFacesP p_round_trip, fc.length = 4) ∧
    (mkFacesP p_round_trip).countP (fun fc => fc.contains 0) = 4 ∧
    (mkFacesP p_round_trip).countP (fun fc => fc.contains 17) = 4 ∧
    (mkFacesP p_round_trip).countP
      (fun fc => !fc.contains 0 && !fc.contains 17) = 8 := by
  have hel : use_edge_loops p_round_trip = false :=
    use_edge_loops_false _ (Or.inl (le_refl 0))
  have hv : (mkVs p_round_trip).length = 18 := by
    rw [mkVs, length_applyWrites, List.length_replicate, hel]
    decide
  refine ⟨hv, ?_⟩
  rw [mkFacesP, hel]
  decide

/-!
## Claim C10
-/

/-- Claim C10: with caps enabled and edge loops disabled, the cap fan offsets
alias the edge-ring offsets (bottom fan = bottom edge ring, top fan = top
edge ring), in the vertex-index plan and in the UV-index plan alike, so cap
faces and side faces reference one shared rim ring. -/
theorem c10_fan_aliases_edge (p : TubeParams) (hcaps : (flagsP p).use_caps = true)
    (hel : use_edge_loops p = false) :
    v_idx_btm_fan p.sectors (flagsP p) (use_edge_loops p) =
      v_idx_btm_edge p.sectors (flagsP p) (use_edge_loops p) ∧
    v_idx_top_fan p.sectors (flagsP p) (use_edge_loops p) =
      v_idx_top_edge p.sectors (flagsP p) (use_edge_loops p) ∧
    vt_idx_btm_fan p.sectors (flagsP p) (use_edge_loops p) =
      vt_idx_btm_edge p.sectors (flagsP p) (use_edge_loops p) ∧
    vt_idx_top_fan p.sectors (flagsP p) (use_edge_loops p) =
      vt_idx_top_edge p.sectors (flagsP p) (use_edge_loops p) := by
  rw [hel]
  refine ⟨?_, ?_, ?_, ?_⟩
  · rw [v_idx_btm_edge, v_idx_btm_ctrl]
    simp
  · rw [v_idx_top_fan, v_idx_top_ctrl]
    simp
  · rw [vt_idx_btm_fan, vt_idx_btm_edge, hcaps]
    simp
  · rw [vt_idx_top_fan, vt_idx_top_edge, hcaps]
    simp

theorem c10_fan_aliases_edge_witness :
    ((flagsP p_round_trip).use_caps = true ∧ use_edge_loops p_round_trip = false) ∧
    (v_idx_btm_fan p_round_trip.sectors (flagsP p_round_trip) (use_edge_loops p_round_trip) =
      v_idx_btm_edge p_round_trip.sectors (flagsP p_round_trip)
        (use_edge_loops p_round_trip) ∧
    v_idx_top_fan p_round_trip.sectors (flagsP p_round_trip) (use_edge_loops p_round_trip) =
      v_idx_top_edge p_round_trip.sectors (flagsP p_round_trip)
        (use_edge_loops p_round_trip) ∧
    vt_idx_btm_fan p_round_trip.sectors (flagsP p_round_trip) (use_edge_loops p_round_trip) =
      vt_idx_btm_edge p_round_trip.sectors (flagsP p_round_trip)
        (use_edge_loops p_round_trip) ∧
    vt_idx_top_fan p_round_trip.sectors (flagsP p_round_trip) (use_edge_loops p_round_trip) =
      vt_idx_top_edge p_round_trip.sectors (flagsP p_round_trip)
        (use_edge_loops p_round_trip)) :=
  have hel : use_edge_loops p_round_trip = false :=
    use_edge_loops_false _ (Or.inl (le_refl 0))
  have hcaps : (flagsP p_round_trip).use_caps = true := by decide
  ⟨⟨hcaps, hel⟩, c10_fan_aliases_edge p_round_trip hcaps hel⟩

/-!
## Claim C3
-/

theorem spoke_implies_caps (f : Flags) (h : f.use_center_spoke = true) :
    f.use_caps = true := by
  simp only [Flags.use_center_spoke, Bool.or_eq_true] at h
  simp only [Flags.use_caps, Bool.or_eq_true]
  tauto

theorem edge_chain_bounds (p : TubeParams) :
    v_idx_top_edge p.sectors (flagsP p) (use_edge_loops p) + p.sectors ≤
      len_vs p.sectors (flagsP p) (use_edge_loops p) ∧
    v_idx_btm_edge p.sectors (flagsP p) (use_edge_loops p) + p.sectors ≤
      v_idx_top_edge p.sectors (flagsP p) (use_edge_loops p) := by
  have hco : ((flagsP p).use_caps || (flagsP p).cap_is_none) = true :=
    effFlags_caps_or_none p.sectors p.cap_face_type
  constructor <;>
    simp only [len_vs, v_idx_top_spoke, v_idx_top_fan, v_idx_top_ctrl, v_idx_top_edge,
      v_idx_side_upp_ctrl, v_idx_mid, v_idx_side_lwr_ctrl, hco, if_true] <;>
    split_ifs <;> omega

theorem top_spoke_le_len_vs (p : TubeParams) :
    v_idx_top_spoke p.sectors (flagsP p) (use_edge_loops p) ≤
      len_vs p.sectors (flagsP p) (use_edge_loops p) := by
  simp only [len_vs]
  split_ifs <;> omega

/-- Every write of the geometry synthesizer targets an index inside the
allocated position buffer, for every flag configuration. -/
theorem vWrites_targets_lt_len_vs (p : TubeParams) :
    ∀ w ∈ vWrites p, w.1 < len_vs p.sectors (flagsP p) (use_edge_loops p) := by
  have hchain := edge_chain_bounds p
  have hts := top_spoke_le_len_vs p
  have h0 : v_idx_btm_spoke p.sectors (flagsP p) (use_edge_loops p) = 0 := rfl
  intro w hw
  rw [vWrites] at hw
  simp only [List.mem_append] at hw
  rcases hw with (hw | hw) | hw
  · split at hw
    · next hsp =>
      have hlen : len_vs p.sectors (flagsP p) (use_edge_loops p) =
          v_idx_top_spoke p.sectors (flagsP p) (use_edge_loops p) + 1 := by
        simp [len_vs, hsp]
      simp only [List.mem_cons, List.not_mem_nil, or_false] at hw
      rcases hw with hw | hw <;> subst hw <;> simp only <;> omega
    · next => simp at hw
  · rcases mem_ringW_elim hw with ⟨i, hi, r, hr, he⟩
    simp only [List.mem_cons, List.not_mem_nil, or_false] at hr
    subst he
    rcases hr with hr | hr <;> subst hr <;> simp only <;> omega
  · split at hw
    · next hel =>
      have e4 : v_idx_side_lwr_ctrl p.sectors (flagsP p) (use_edge_loops p) =
          v_idx_btm_edge p.sectors (flagsP p) (use_edge_loops p) + p.sectors := rfl
      have e1 : v_idx_mid p.sectors (flagsP p) (use_edge_loops p) =
          v_idx_side_lwr_ctrl p.sectors (flagsP p) (use_edge_loops p) + p.sectors := by
        simp [v_idx_mid, hel]
      have e2 : v_idx_side_upp_ctrl p.sectors (flagsP p) (use_edge_loops p) =
          v_idx_mid p.sectors (flagsP p) (use_edge_loops p) + p.sectors := by
        simp [v_idx_side_upp_ctrl, hel]
      have e3 : v_idx_top_edge p.sectors (flagsP p) (use_edge_loops p) =
          v_idx_side_upp_ctrl p.sectors (flagsP p) (use_edge_loops p) + p.sectors := by
        simp [v_idx_top_edge, hel]
      rcases List.mem_append.mp hw with hw | hw
      · rcases mem_ringW_elim hw with ⟨i, hi, r, hr, he⟩
        simp only [List.mem_cons, List.not_mem_nil, or_false] at hr
        subst he
        rcases hr with hr | hr | hr <;> subst hr <;> simp only <;> omega
      · split at hw
        · next hcap =>
          have f1 : v_idx_btm_ctrl p.sectors (flagsP p) (use_edge_loops p) =
              v_idx_btm_fan p.sectors (flagsP p) (use_edge_loops p) + p.sectors := by
            simp [v_idx_btm_ctrl, hel, hcap]
          have f2 : v_idx_btm_edge p.sectors (flagsP p) (use_edge_loops p) =
              v_idx_btm_ctrl p.sectors (flagsP p) (use_edge_loops p) + p.sectors := by
            simp [v_idx_btm_edge, hel, hcap]
          have f3 : v_idx_top_ctrl p.sectors (flagsP p) (use_edge_loops p) =
              v_idx_top_edge p.sectors (flagsP p) (use_edge_loops p) + p.sectors := by
            simp [v_idx_top_ctrl, hel]
          have f4 : v_idx_top_fan p.sectors (flagsP p) (use_edge_loops p) =
              v_idx_top_ctrl p.sectors (flagsP p) (use_edge_loops p) + p.sectors := by
            simp [v_idx_top_fan, hel]
          have f5 : v_idx_top_spoke p.sectors (flagsP p) (use_edge_loops p) =
              v_idx_top_fan p.sectors (flagsP p) (use_edge_loops p) + p.sectors := by
            simp [v_idx_top_spoke, hcap]
          rcases mem_ringW_elim hw with ⟨i, hi, r, hr, he⟩
          simp only [List.mem_cons, List.not_mem_nil, or_false] at hr
          subst he
          rcases hr with hr | hr | hr | hr <;> subst hr <;> simp only <;> omega
        · next => simp at hw
    · next => simp at hw

/-- With `capStyle = NONE` and edge loops enabled, every geometry write
stays strictly below `v_idx_top_ctrl`: the two top cap blocks the plan
allocates are never written. -/
theorem vWrites_targets_lt_top_ctrl (p : TubeParams)
    (hcaps : (flagsP p).use_caps = false) (hel : use_edge_loops p = true) :
    ∀ w ∈ vWrites p, w.1 < v_idx_top_ctrl p.sectors (flagsP p) (use_edge_loops p) := by
  have e4 : v_idx_side_lwr_ctrl p.sectors (flagsP p) (use_edge_loops p) =
      v_idx_btm_edge p.sectors (flagsP p) (use_edge_loops p) + p.sectors := rfl
  have e1 : v_idx_mid p.sectors (flagsP p) (use_edge_loops p) =
      v_idx_side_lwr_ctrl p.sectors (flagsP p) (use_edge_loops p) + p.sectors := by
    simp [v_idx_mid, hel]
  have e2 : v_idx_side_upp_ctrl p.sectors (flagsP p) (use_edge_loops p) =
      v_idx_mid p.sectors (flagsP p) (use_edge_loops p) + p.sectors := by
    simp [v_idx_side_upp_ctrl, hel]
  have e3 : v_idx_top_edge p.sectors (flagsP p) (use_edge_loops p) =
      v_idx_side_upp_ctrl p.sectors (flagsP p) (use_edge_loops p) + p.sectors := by
    simp [v_idx_top_edge, hel]
  have e5 : v_idx_top_ctrl p.sectors (flagsP p) (use_edge_loops p) =
      v_idx_top_edge p.sectors (flagsP p) (use_edge_loops p) + p.sectors := by
    simp [v_idx_top_ctrl, hel]
  intro w hw
  rw [vWrites] at hw
  simp only [List.mem_append] at hw
  rcases hw with (hw | hw) | hw
  · split at hw
    · next hsp =>
      have := spoke_implies_caps (flagsP p) hsp
      rw [this] at hcaps
      exact Bool.noConfusion hcaps
    · next => simp at hw
  · rcases mem_ringW_elim hw with ⟨i, hi, r, hr, he⟩
    simp only [List.mem_cons, List.not_mem_nil, or_false] at hr
    subst he
    rcases hr with hr | hr <;> subst hr <;> simp only <;> omega
  · have hnc : ¬((flagsP p).use_caps = true) := by
      rw [hcaps]
      exact Bool.false_ne_true
    rw [if_pos hel, if_neg hnc, List.append_nil] at hw
    rcases mem_ringW_elim hw with ⟨i, hi, r, hr, he⟩
    simp only [List.mem_cons, List.not_mem_nil, or_false] at hr
    subst he
    rcases hr with hr | hr | hr <;> subst hr <;> simp only <;> omega

/-- A NONE-cap tube with edge loops: sectors = 6, factor 1/2. -/
noncomputable def p_orphan : TubeParams :=
  ⟨6, 0, 1 / 2, 1 / 2, 3 / 2, 0, CapFaceType.NONE, 1 / 2, false⟩

/-- Claim C3 counterexample: with `capStyle = NONE` and edge loops enabled
(sectors = 6, factor 1/2) the top cap-control and top cap-fan groups are
disabled -- no caps exist -- yet lines 254-259 advance their offsets by
`sectors` each, because those advances are gated on `use_edge_loops` alone,
unlike the bottom-cap blocks (lines 238-243, gated on `use_edge_loops and
use_caps`).  The buffer is allocated with `len_vs = 42 = 7 * sectors`, but
every geometry write targets an index below `v_idx_top_ctrl = 30`, so
index 30 still holds the fill value `(0, 0, 0)` in the finished buffer:
disabled groups advance by `sectors`, not by 0, and the mesh carries
`2 * sectors` never-written origin vertices. -/
theorem c3_counterexample_disabled_group_advances :
    (flagsP p_orphan).use_caps = false ∧
    use_edge_loops p_orphan = true ∧
    v_idx_top_ctrl p_orphan.sectors (flagsP p_orphan) (use_edge_loops p_orphan) =
      v_idx_top_edge p_orphan.sectors (flagsP p_orphan) (use_edge_loops p_orphan) + 6 ∧
    v_idx_top_fan p_orphan.sectors (flagsP p_orphan) (use_edge_loops p_orphan) =
      v_idx_top_ctrl p_orphan.sectors (flagsP p_orphan) (use_edge_loops p_orphan) + 6 ∧
    v_idx_top_ctrl p_orphan.sectors (flagsP p_orphan) (use_edge_loops p_orphan) = 30 ∧
    len_vs p_orphan.sectors (flagsP p_orphan) (use_edge_loops p_orphan) = 42 ∧
    (mkVs p_orphan).length = 42 ∧
    (mkVs p_orphan).getD 30 (1, 1, 1) = (0, 0, 0) := by
  have hel : use_edge_loops p_orphan = true :=
    use_edge_loops_true _ (by norm_num [p_orphan]) (by norm_num [p_orphan])
  have hcaps : (flagsP p_orphan).use_caps = false := by decide
  have h30 : v_idx_top_ctrl p_orphan.sectors (flagsP p_orphan)
      (use_edge_loops p_orphan) = 30 := by
    rw [hel]
    decide
  refine ⟨hcaps, hel, ?_, ?_, h30, ?_, ?_, ?_⟩
  · rw [hel]
    decide
  · rw [hel]
    decide
  · rw [hel]
    decide
  · rw [mkVs, length_applyWrites, List.length_replicate, hel]
    decide
  · have hne : ∀ w ∈ vWrites p_orphan, w.1 ≠ 30 := by
      intro w hw
      have := vWrites_targets_lt_top_ctrl p_orphan hcaps hel w hw
      omega
    rw [mkVs, getD_applyWrites_of_ne _ hne, hel]
    have hl : len_vs p_orphan.sectors (flagsP p_orphan) true = 42 := by decide
    rw [hl]
    simp [List.getD_eq_getElem?_getD, List.getElem?_replicate]

/-- Claim C3 amended: the vertex-index offsets form a non-decreasing chain
whose advances are exactly the code's gated sizes (1 for a spoke, `sectors`
for a ring, 0 when the gate is off), the final accumulated offset equals
`positions.length`, the face-loop offsets and face-buffer length obey the
same accumulation discipline, and every geometry write lands inside the
allocated buffer -- EXCEPT that the top cap-control and top cap-fan
advances are gated on edge loops alone, so with `capStyle = NONE` and edge
loops enabled these two disabled groups still advance by `sectors` each:
the chain then allocates `2 * sectors` slots beyond every write target. -/
theorem c3_amended_offset_accumulation (p : TubeParams) (hv : ValidParams p) :
    (v_idx_btm_spoke p.sectors (flagsP p) (use_edge_loops p) = 0 ∧
      v_idx_btm_fan p.sectors (flagsP p) (use_edge_loops p) =
        v_idx_btm_spoke p.sectors (flagsP p) (use_edge_loops p) +
          (if (flagsP p).use_center_spoke then 1 else 0) ∧
      v_idx_btm_ctrl p.sectors (flagsP p) (use_edge_loops p) =
        v_idx_btm_fan p.sectors (flagsP p) (use_edge_loops p) +
          (if use_edge_loops p && (flagsP p).use_caps then p.sectors else 0) ∧
      v_idx_btm_edge p.sectors (flagsP p) (use_edge_loops p) =
        v_idx_btm_ctrl p.sectors (flagsP p) (use_edge_loops p) +
          (if use_edge_loops p && (flagsP p).use_caps then p.sectors else 0) ∧
      v_idx_side_lwr_ctrl p.sectors (flagsP p) (use_edge_loops p) =
        v_idx_btm_edge p.sectors (flagsP p) (use_edge_loops p) + p.sectors ∧
      v_idx_mid p.sectors (flagsP p) (use_edge_loops p) =
        v_idx_side_lwr_ctrl p.sectors (flagsP p) (use_edge_loops p) +
          (if use_edge_loops p then p.sectors else 0) ∧
      v_idx_side_upp_ctrl p.sectors (flagsP p) (use_edge_loops p) =
        v_idx_mid p.sectors (flagsP p) (use_edge_loops p) +
          (if use_edge_loops p then p.sectors else 0) ∧
      v_idx_top_edge p.sectors (flagsP p) (use_edge_loops p) =
        v_idx_side_upp_ctrl p.sectors (flagsP p) (use_edge_loops p) +
          (if use_edge_loops p then p.sectors else 0) ∧
      v_idx_top_ctrl p.sectors (flagsP p) (use_edge_loops p) =
        v_idx_top_edge p.sectors (flagsP p) (use_edge_loops p) +
          (if use_edge_loops p then p.sectors else 0) ∧
      v_idx_top_fan p.sectors (flagsP p) (use_edge_loops p) =
        v_idx_top_ctrl p.sectors (flagsP p) (use_edge_loops p) +
          (if use_edge_loops p then p.sectors else 0) ∧
      v_idx_top_spoke p.sectors (flagsP p) (use_edge_loops p) =
        v_idx_top_fan p.sectors (flagsP p) (use_edge_loops p) + p.sectors ∧
      len_vs p.sectors (flagsP p) (use_edge_loops p) =
        v_idx_top_spoke p.sectors (flagsP p) (use_edge_loops p) +
          (if (flagsP p).use_center_spoke then 1 else 0)) ∧
    (mkVs p).length = len_vs p.sectors (flagsP p) (use_edge_loops p) ∧
    (loop_idx_btm_fan p.sectors (flagsP p) (use_edge_loops p) = 0 ∧
      loop_idx_btm_mid p.sectors (flagsP p) (use_edge_loops p) =
        loop_idx_btm_fan p.sectors (flagsP p) (use_edge_loops p) +
          cap_faces_count p.sectors (flagsP p) ∧
      loop_idx_btm_ctrl p.sectors (flagsP p) (use_edge_loops p) =
        loop_idx_btm_mid p.sectors (flagsP p) (use_edge_loops p) +
          (if use_edge_loops p && (flagsP p).use_caps then p.sectors else 0) ∧
      loop_idx_side_lwr_ctrl p.sectors (flagsP p) (use_edge_loops p) =
        loop_idx_btm_ctrl p.sectors (flagsP p) (use_edge_loops p) +
          (if use_edge_loops p && (flagsP p).use_caps then p.sectors else 0) ∧
      loop_idx_side_lwr p.sectors (flagsP p) (use_edge_loops p) =
        loop_idx_side_lwr_ctrl p.sectors (flagsP p) (use_edge_loops p) +
          (if use_edge_loops p then p.sectors else 0) ∧
      loop_idx_side_upp p.sectors (flagsP p) (use_edge_loops p) =
        loop_idx_side_lwr p.sectors (flagsP p) (use_edge_loops p) +
          (if use_edge_loops p then p.sectors else 0) ∧
      loop_idx_side_upp_ctrl p.sectors (flagsP p) (use_edge_loops p) =
        loop_idx_side_upp p.sectors (flagsP p) (use_edge_loops p) +
          (if use_edge_loops p then p.sectors else 0) ∧
      loop_idx_top_ctrl p.sectors (flagsP p) (use_edge_loops p) =
        loop_idx_side_upp_ctrl p.sectors (flagsP p) (use_edge_loops p) +
          (if use_edge_loops p && (flagsP p).use_caps then p.sectors else 0) ∧
      loop_idx_top_mid p.sectors (flagsP p) (use_edge_loops p) =
        loop_idx_top_ctrl p.sectors (flagsP p) (use_edge_loops p) +
          (if use_edge_loops p && (flagsP p).use_caps then p.sectors else 0) ∧
      loop_idx_top_fan p.sectors (flagsP p) (use_edge_loops p) =
        loop_idx_top_mid p.sectors (flagsP p) (use_edge_loops p) + p.sectors ∧
      len_loop_idcs p.sectors (flagsP p) (use_edge_loops p) =
        loop_idx_top_fan p.sectors (flagsP p) (use_edge_loops p) +
          cap_faces_count p.sectors (flagsP p)) ∧
    (mkFacesP p).length = len_loop_idcs p.sectors (flagsP p) (use_edge_loops p) ∧
    (∀ w ∈ vWrites p, w.1 < len_vs p.sectors (flagsP p) (use_edge_loops p)) ∧
    ((flagsP p).use_caps = false → use_edge_loops p = true →
      v_idx_top_ctrl p.sectors (flagsP p) (use_edge_loops p) =
        v_idx_top_edge p.sectors (flagsP p) (use_edge_loops p) + p.sectors ∧
      v_idx_top_fan p.sectors (flagsP p) (use_edge_loops p) =
        v_idx_top_ctrl p.sectors (flagsP p) (use_edge_loops p) + p.sectors ∧
      (∀ w ∈ vWrites p,
        w.1 < v_idx_top_ctrl p.sectors (flagsP p) (use_edge_loops p))) := by
  refine ⟨⟨rfl, rfl, rfl, rfl, rfl, rfl, rfl, rfl, rfl, rfl, ?_, rfl⟩, ?_,
    ⟨rfl, rfl, rfl, rfl, rfl, rfl, rfl, rfl, rfl, rfl, rfl⟩, ?_,
    vWrites_targets_lt_len_vs p, ?_⟩
  · simp only [v_idx_top_spoke, flagsP, effFlags_caps_or_none, if_true]
  · rw [mkVs, length_applyWrites, List.length_replicate]
  · rw [mkFacesP, mkFaces, length_applyWrites, List.length_replicate]
  · intro hcaps hel
    exact ⟨by simp [v_idx_top_ctrl, hel], by simp [v_idx_top_fan, hel],
      vWrites_targets_lt_top_ctrl p hcaps hel⟩

theorem c3_amended_offset_accumulation_witness :
    (ValidParams p_orphan ∧ (flagsP p_orphan).use_caps = false ∧
      use_edge_loops p_orphan = true) ∧
    (mkVs p_orphan).length =
      len_vs p_orphan.sectors (flagsP p_orphan) (use_edge_loops p_orphan) ∧
    v_idx_top_ctrl p_orphan.sectors (flagsP p_orphan) (use_edge_loops p_orphan) =
      v_idx_top_edge p_orphan.sectors (flagsP p_orphan) (use_edge_loops p_orphan) +
        p_orphan.sectors :=
  have hv : ValidParams p_orphan := by
    refine ⟨by norm_num [p_orphan], ?_, ?_, ?_, ?_, ?_, ?_, ?_⟩ <;>
      norm_num [p_orphan]
  have hel : use_edge_loops p_orphan = true :=
    use_edge_loops_true _ (by norm_num [p_orphan]) (by norm_num [p_orphan])
  have hcaps : (flagsP p_orphan).use_caps = false := by decide
  have h := c3_amended_offset_accumulation p_orphan hv
  ⟨⟨hv, hcaps, hel⟩, h.2.1, (h.2.2.2.2.2 hcaps hel).1⟩

/-!
## Claim C6
-/

theorem fan_writes_none_flags (s : ℕ) (el : Bool) :
    fan_writes s ⟨true, false, false, false⟩ el = [] := rfl

/-- Claim C6: with `capStyle = NONE` the face buffer holds no cap faces --
the cap synthesizer emits nothing and the write sequence is exactly the
side-strip sequence -- and the face count is `sectors` when the edge-loop
factor is 0 (or at the property maximum 1) and `4 * sectors` when the
factor lies strictly in `(0, 1)`; every face is a quad. -/
theorem c6_none_caps_only_side_faces (p : TubeParams) (hv : ValidParams p)
    (hc : p.cap_face_type = CapFaceType.NONE) :
    ((p.edge_loop_fac ≤ 0 ∨ 1 ≤ p.edge_loop_fac) →
      (mkFacesP p).length = p.sectors ∧
      (∀ fc ∈ mkFacesP p, fc.length = 4) ∧
      face_writes p.sectors (flagsP p) (use_edge_loops p) =
        side_writes_noel p.sectors (flagsP p) (use_edge_loops p)) ∧
    ((0 < p.edge_loop_fac ∧ p.edge_loop_fac < 1) →
      (mkFacesP p).length = 4 * p.sectors ∧
      (∀ fc ∈ mkFacesP p, fc.length = 4) ∧
      face_writes p.sectors (flagsP p) (use_edge_loops p) =
        side_writes_el p.sectors (flagsP p) (use_edge_loops p)) := by
  have hf : flagsP p = ⟨true, false, false, false⟩ := by
    rw [flagsP, hc, effFlags_none]
  constructor
  · intro ht
    have hel : use_edge_loops p = false := use_edge_loops_false p ht
    have hwr : face_writes p.sectors (flagsP p) (use_edge_loops p) =
        side_writes_noel p.sectors (flagsP p) (use_edge_loops p) := by
      rw [face_writes, hel, hf, fan_writes_none_flags]
      simp
    refine ⟨?_, ?_, hwr⟩
    · rw [mkFacesP, mkFaces, length_applyWrites, List.length_replicate, hel, hf]
      simp [len_loop_idcs, loop_idx_top_fan, loop_idx_top_mid, loop_idx_top_ctrl,
        loop_idx_side_upp_ctrl, loop_idx_side_upp, loop_idx_side_lwr,
        loop_idx_side_lwr_ctrl, loop_idx_btm_ctrl, loop_idx_btm_mid,
        loop_idx_btm_fan, cap_faces_count, Flags.use_caps]
    · intro fc hfc
      rw [mkFacesP, mkFaces] at hfc
      rcases mem_of_mem_applyWrites hfc with h | ⟨w, hw, he⟩
      · rw [List.eq_of_mem_replicate h]
        rfl
      · rw [hwr, hel] at hw
        unfold side_writes_noel at hw
        rcases mem_ringW_elim hw with ⟨i, _, r, hr, hre⟩
        simp only [List.mem_cons, List.not_mem_nil, or_false] at hr
        subst hre
        subst he
        rw [hr]
        rfl
  · rintro ⟨h0, h1⟩
    have hel : use_edge_loops p = true := use_edge_loops_true p h0 h1
    have hwr : face_writes p.sectors (flagsP p) (use_edge_loops p) =
        side_writes_el p.sectors (flagsP p) (use_edge_loops p) := by
      rw [face_writes, hel, hf, fan_writes_none_flags]
      simp [Flags.use_caps]
    refine ⟨?_, ?_, hwr⟩
    · rw [mkFacesP, mkFaces, length_applyWrites, List.length_replicate, hel, hf]
      simp [len_loop_idcs, loop_idx_top_fan, loop_idx_top_mid, loop_idx_top_ctrl,
        loop_idx_side_upp_ctrl, loop_idx_side_upp, loop_idx_side_lwr,
        loop_idx_side_lwr_ctrl, loop_idx_btm_ctrl, loop_idx_btm_mid,
        loop_idx_btm_fan, cap_faces_count, Flags.use_caps]
      ring
    · intro fc hfc
      rw [mkFacesP, mkFaces] at hfc
      rcases mem_of_mem_applyWrites hfc with h | ⟨w, hw, he⟩
      · rw [List.eq_of_mem_replicate h]
        rfl
      · rw [hwr, hel] at hw
        unfold side_writes_el at hw
        rcases mem_ringW_elim hw with ⟨i, _, r, hr, hre⟩
        simp only [List.mem_cons, List.not_mem_nil, or_false] at hr
        subst hre
        subst he
        rcases hr with hr | hr | hr | hr <;> rw [hr] <;> rfl

/-- A NONE-cap parameter set with edge loops enabled (`t = 1/2`). -/
noncomputable def p_none_loops : TubeParams :=
  ⟨6, 0, 1 / 2, 1 / 2, 3 / 2, 0, CapFaceType.NONE, 1 / 2, false⟩

theorem c6_none_caps_only_side_faces_witness :
    (ValidParams p_none_loops ∧ p_none_loops.cap_face_type = CapFaceType.NONE ∧
      0 < p_none_loops.edge_loop_fac ∧ p_none_loops.edge_loop_fac < 1) ∧
    (mkFacesP p_none_loops).length = 4 * p_none_loops.sectors :=
  have hv : ValidParams p_none_loops := by
    refine ⟨by norm_num [p_none_loops], ?_, ?_, ?_, ?_, ?_, ?_, ?_⟩ <;>
      norm_num [p_none_loops]
  have h01 : 0 < p_none_loops.edge_loop_fac ∧ p_none_loops.edge_loop_fac < 1 := by
    constructor <;> norm_num [p_none_loops]
  ⟨⟨hv, rfl, h01⟩,
    ((c6_none_caps_only_side_faces p_none_loops hv rfl).2 h01).1⟩

/-!
## Claim C7
-/

/-- A NONE-cap tube with `radius_btm < depth` and edge loops enabled. -/
noncomputable def p_c7 : TubeParams :=
  ⟨4, 0, 1 / 2, 1 / 2, 3 / 2, 0, CapFaceType.NONE, 1 / 2, false⟩

/-- Claim C7 counterexample: the claim quantifies over every parameter set
with edge loops enabled, but without caps both aspect ratios stay `1.0`
(lines 188-192), so with `capStyle = NONE`, `radiusBottom = 1/2 < depth =
3/2`, `t = 1/2` the lower side control loop sits at
`z = u*vz_btm + t*vz_mid = -3/8`, not at the claimed
`(1 - t*(r/d))*vz_btm + t*(r/d)*vz_mid = -5/8`. -/
theorem c7_counterexample_no_caps_no_scaling :
    (0 < p_c7.edge_loop_fac ∧ p_c7.edge_loop_fac < 1) ∧
    p_c7.radius_btm < p_c7.depth ∧
    side_lwr_ctrl_z p_c7 = -(3 / 8) ∧
    (1 - p_c7.edge_loop_fac * (p_c7.radius_btm / p_c7.depth)) * vz_btm p_c7 +
      p_c7.edge_loop_fac * (p_c7.radius_btm / p_c7.depth) * vz_mid p_c7 = -(5 / 8) ∧
    side_lwr_ctrl_z p_c7 ≠
      (1 - p_c7.edge_loop_fac * (p_c7.radius_btm / p_c7.depth)) * vz_btm p_c7 +
        p_c7.edge_loop_fac * (p_c7.radius_btm / p_c7.depth) * vz_mid p_c7 := by
  have hcaps : (flagsP p_c7).use_caps = false := by decide
  have hasp : aspect_ratio_btm p_c7 = 1 := by
    rw [aspect_ratio_btm, hcaps]
    simp
  have hmid : vz_mid p_c7 = 0 := by
    rw [vz_mid, offset_fac, half_depth]
    norm_num [p_c7]
  have hbtm : vz_btm p_c7 = -(3 / 4) := by
    rw [vz_btm, hmid, half_depth]
    norm_num [p_c7]
  have ht : t_btm p_c7 = 1 / 2 := by
    rw [t_btm, if_pos (show p_c7.radius_btm < p_c7.depth by norm_num [p_c7]), hasp]
    norm_num [p_c7]
  have hz : side_lwr_ctrl_z p_c7 = -(3 / 8) := by
    rw [side_lwr_ctrl_z, u_btm, ht, hmid, hbtm]
    norm_num
  have hclaim : (1 - p_c7.edge_loop_fac * (p_c7.radius_btm / p_c7.depth)) * vz_btm p_c7 +
      p_c7.edge_loop_fac * (p_c7.radius_btm / p_c7.depth) * vz_mid p_c7 = -(5 / 8) := by
    rw [hmid, hbtm]
    norm_num [p_c7]
  refine ⟨⟨by norm_num [p_c7], by norm_num [p_c7]⟩, by norm_num [p_c7], hz, hclaim, ?_⟩
  rw [hz, hclaim]
  norm_num

/-- Claim C7 amended: with caps enabled (otherwise the aspect ratios stay 1
and no scaling occurs): when a cap radius is below depth the corresponding
side control factor is `t * (radius/depth)` while the fan factor stays `t`;
when the radius reaches depth the fan control factor is
`t / (radius/depth) = t * (depth/radius)` while the side factor stays `t`;
the control heights/radii interpolate with those factors. -/
theorem c7_amended_aspect_scaling (p : TubeParams) (hv : ValidParams p)
    (hcaps : (flagsP p).use_caps = true) :
    (p.radius_btm < p.depth →
      t_btm p = p.edge_loop_fac * (p.radius_btm / p.depth) ∧
      t_fan_btm p = p.edge_loop_fac ∧
      side_lwr_ctrl_z p =
        (1 - p.edge_loop_fac * (p.radius_btm / p.depth)) * vz_btm p +
          p.edge_loop_fac * (p.radius_btm / p.depth) * vz_mid p) ∧
    (p.depth ≤ p.radius_btm →
      t_fan_btm p = p.edge_loop_fac * (p.depth / p.radius_btm) ∧
      t_btm p = p.edge_loop_fac ∧
      radius_cap_lwr_ctrl p =
        (1 - p.edge_loop_fac * (p.depth / p.radius_btm)) * p.radius_btm +
          p.edge_loop_fac * (p.depth / p.radius_btm) * radius_fan_btm p) ∧
    (p.radius_top < p.depth →
      t_top p = p.edge_loop_fac * (p.radius_top / p.depth) ∧
      t_fan_top p = p.edge_loop_fac ∧
      side_upp_ctrl_z p =
        (1 - p.edge_loop_fac * (p.radius_top / p.depth)) * vz_top p +
          p.edge_loop_fac * (p.radius_top / p.depth) * vz_mid p) ∧
    (p.depth ≤ p.radius_top →
      t_fan_top p = p.edge_loop_fac * (p.depth / p.radius_top) ∧
      t_top p = p.edge_loop_fac ∧
      radius_cap_upp_ctrl p =
        (1 - p.edge_loop_fac * (p.depth / p.radius_top)) * p.radius_top +
          p.edge_loop_fac * (p.depth / p.radius_top) * radius_fan_top p) := by
  obtain ⟨-, hrb, hrt, hd, -⟩ := hv
  have haspb : aspect_ratio_btm p = p.radius_btm / p.depth := by
    rw [aspect_ratio_btm, hcaps]
    simp
  have haspt : aspect_ratio_top p = p.radius_top / p.depth := by
    rw [aspect_ratio_top, hcaps]
    simp
  refine ⟨fun h => ?_, fun h => ?_, fun h => ?_, fun h => ?_⟩
  · have ht : t_btm p = p.edge_loop_fac * (p.radius_btm / p.depth) := by
      rw [t_btm, if_pos h, haspb]
    exact ⟨ht, by rw [t_fan_btm, if_neg (not_le.mpr h)],
      by rw [side_lwr_ctrl_z, u_btm, ht]⟩
  · have ht : t_fan_btm p = p.edge_loop_fac * (p.depth / p.radius_btm) := by
      rw [t_fan_btm, if_pos h, haspb]
      field_simp
    exact ⟨ht, by rw [t_btm, if_neg (not_lt.mpr h)],
      by rw [radius_cap_lwr_ctrl, u_fan_btm, ht]⟩
  · have ht : t_top p = p.edge_loop_fac * (p.radius_top / p.depth) := by
      rw [t_top, if_pos h, haspt]
    exact ⟨ht, by rw [t_fan_top, if_neg (not_le.mpr h)],
      by rw [side_upp_ctrl_z, u_top, ht]⟩
  · have ht : t_fan_top p = p.edge_loop_fac * (p.depth / p.radius_top) := by
      rw [t_fan_top, if_pos h, haspt]
      field_simp
    exact ⟨ht, by rw [t_top, if_neg (not_lt.mpr h)],
      by rw [radius_cap_upp_ctrl, u_fan_top, ht]⟩

/-- A capped tube with `radius_btm < depth ≤ radius_top` and edge loops. -/
noncomputable def p_c7w : TubeParams :=
  ⟨8, 0, 1 / 2, 2, 3 / 2, 0, CapFaceType.QUAD, 1 / 2, false⟩

theorem c7_amended_aspect_scaling_witness :
    (ValidParams p_c7w ∧ (flagsP p_c7w).use_caps = true ∧
      p_c7w.radius_btm < p_c7w.depth ∧ p_c7w.depth ≤ p_c7w.radius_top) ∧
    t_btm p_c7w = p_c7w.edge_loop_fac * (p_c7w.radius_btm / p_c7w.depth) ∧
    t_fan_top p_c7w = p_c7w.edge_loop_fac * (p_c7w.depth / p_c7w.radius_top) :=
  have hv : ValidParams p_c7w := by
    refine ⟨by norm_num [p_c7w], ?_, ?_, ?_, ?_, ?_, ?_, ?_⟩ <;> norm_num [p_c7w]
  have hcaps : (flagsP p_c7w).use_caps = true := by decide
  have hb : p_c7w.radius_btm < p_c7w.depth := by norm_num [p_c7w]
  have ht : p_c7w.depth ≤ p_c7w.radius_top := by norm_num [p_c7w]
  ⟨⟨hv, hcaps, hb, ht⟩,
    ((c7_amended_aspect_scaling p_c7w hv hcaps).1 hb).1,
    ((c7_amended_aspect_scaling p_c7w hv hcaps).2.2.2 ht).1⟩

/-!
## Claim C8
-/

theorem v_idx_top_edge_no_loops (p : TubeParams) :
    v_idx_top_edge p.sectors (flagsP p) false =
      v_idx_btm_edge p.sectors (flagsP p) false + p.sectors := by
  simp [v_idx_top_edge, v_idx_side_upp_ctrl, v_idx_mid, v_idx_side_lwr_ctrl]

theorem edge_rings_below_len_vs (p : TubeParams) :
    v_idx_btm_edge p.sectors (flagsP p) false + p.sectors + p.sectors ≤
      len_vs p.sectors (flagsP p) false := by
  have hco : ((flagsP p).use_caps || (flagsP p).cap_is_none) = true :=
    effFlags_caps_or_none p.sectors p.cap_face_type
  simp only [len_vs, v_idx_top_spoke, v_idx_top_fan, v_idx_top_ctrl, v_idx_top_edge,
    v_idx_side_upp_ctrl, v_idx_mid, v_idx_side_lwr_ctrl, hco, Bool.false_eq_true,
    if_false, if_true, add_zero]
  split_ifs <;> omega

/-- Without edge loops, the final position buffer holds, at the bottom and
top edge-ring offsets, exactly the ring samples of lines 277-290. -/
theorem edge_ring_reads (p : TubeParams) (hel : use_edge_loops p = false) :
    ∀ i < p.sectors,
      (mkVs p).getD (v_idx_btm_edge p.sectors (flagsP p) false + i) (0, 0, 0) =
        ((cartesian p i).1 * p.radius_btm, (cartesian p i).2 * p.radius_btm,
          vz_btm p) ∧
      (mkVs p).getD (v_idx_top_edge p.sectors (flagsP p) false + i) (0, 0, 0) =
        ((cartesian p i).1 * p.radius_top, (cartesian p i).2 * p.radius_top,
          vz_top p) := by
  have htopeq := v_idx_top_edge_no_loops p
  have hlen := edge_rings_below_len_vs p
  have hvw : vWrites p =
      (if (flagsP p).use_center_spoke then
        [(v_idx_btm_spoke p.sectors (flagsP p) false, ((0 : ℝ), (0 : ℝ), vz_btm p)),
          (v_idx_top_spoke p.sectors (flagsP p) false, (0, 0, vz_top p))]
      else []) ++
      ringW p.sectors
        [(v_idx_btm_edge p.sectors (flagsP p) false, fun j =>
            ((cartesian p j).1 * p.radius_btm, (cartesian p j).2 * p.radius_btm,
              vz_btm p)),
          (v_idx_top_edge p.sectors (flagsP p) false, fun j =>
            ((cartesian p j).1 * p.radius_top, (cartesian p j).2 * p.radius_top,
              vz_top p))] := by
    rw [vWrites, hel]
    simp
  have hpair : (ringW p.sectors
      [(v_idx_btm_edge p.sectors (flagsP p) false, fun j =>
          ((cartesian p j).1 * p.radius_btm, (cartesian p j).2 * p.radius_btm,
            vz_btm p)),
        (v_idx_top_edge p.sectors (flagsP p) false, fun j =>
          ((cartesian p j).1 * p.radius_top, (cartesian p j).2 * p.radius_top,
            vz_top p))]).Pairwise (fun a b => a.1 ≠ b.1) := by
    apply pairwise_ringW ?_ p.sectors (le_refl _)
    refine List.pairwise_cons.mpr ⟨?_, List.pairwise_singleton _ _⟩
    intro b hb
    rw [List.mem_singleton] at hb
    subst hb
    exact Or.inl (le_of_eq htopeq.symm)
  intro i hi
  constructor
  · rw [mkVs, hel, hvw, applyWrites_append]
    refine getD_applyWrites_of_mem _ hpair ?_ ?_
    · exact mem_ringW (List.mem_cons_self _ _) hi
    · rw [length_applyWrites, List.length_replicate]
      omega
  · rw [mkVs, hel, hvw, applyWrites_append]
    refine getD_applyWrites_of_mem _ hpair ?_ ?_
    · exact mem_ringW (List.mem_cons_of_mem _ (List.mem_cons_self _ _)) hi
    · rw [length_applyWrites, List.length_replicate]
      omega

/-- Claim C8: with `radiusBottom = radiusTop`, `depthOffset = 0` and
`edgeLoopFactor = 0`, the bottom and top edge rings are exact mirror images
about the plane z = 0 -- per sector sample the same x, y and z values
`-depth/2` resp. `+depth/2`.  The mid ring is never computed here
(`use_edge_loops` is false), and the mid-height values the code would use
sit exactly halfway (`vz_mid` is the midpoint, `radius_mid` the radius). -/
theorem c8_mirror_rings (p : TubeParams) (hv : ValidParams p)
    (hr : p.radius_btm = p.radius_top) (ho : p.depth_offset = 0)
    (ht : p.edge_loop_fac = 0) :
    use_edge_loops p = false ∧
    vz_btm p = -(p.depth / 2) ∧
    vz_top p = p.depth / 2 ∧
    vz_mid p = (vz_btm p + vz_top p) / 2 ∧
    radius_mid p = p.radius_btm ∧
    ∀ i < p.sectors,
      (mkVs p).getD
          (v_idx_btm_edge p.sectors (flagsP p) (use_edge_loops p) + i) (0, 0, 0) =
        ((cartesian p i).1 * p.radius_btm, (cartesian p i).2 * p.radius_btm,
          -(p.depth / 2)) ∧
      (mkVs p).getD
          (v_idx_top_edge p.sectors (flagsP p) (use_edge_loops p) + i) (0, 0, 0) =
        ((cartesian p i).1 * p.radius_btm, (cartesian p i).2 * p.radius_btm,
          p.depth / 2) := by
  have hel : use_edge_loops p = false := use_edge_loops_false p (Or.inl (le_of_eq ht))
  have hmid : vz_mid p = 0 := by
    rw [vz_mid, offset_fac, ho, half_depth]
    ring
  have hbtm : vz_btm p = -(p.depth / 2) := by
    rw [vz_btm, hmid, half_depth]
    ring
  have htop : vz_top p = p.depth / 2 := by
    rw [vz_top, hmid, half_depth]
    ring
  refine ⟨hel, hbtm, htop, by rw [hmid, hbtm, htop]; ring,
    by rw [radius_mid, hr]; ring, ?_⟩
  intro i hi
  obtain ⟨h1, h2⟩ := edge_ring_reads p hel i hi
  constructor
  · rw [hel, h1, hbtm]
  · rw [hel, h2, htop, hr]

/-- A symmetric capped tube: `sectors = 8`, radii `1/2`, depth `3/2`. -/
noncomputable def p_sym : TubeParams :=
  ⟨8, 0, 1 / 2, 1 / 2, 3 / 2, 0, CapFaceType.NGON, 0, false⟩

theorem c8_mirror_rings_witness :
    (ValidParams p_sym ∧ p_sym.radius_btm = p_sym.radius_top ∧
      p_sym.depth_offset = 0 ∧ p_sym.edge_loop_fac = 0) ∧
    (vz_btm p_sym = -(p_sym.depth / 2) ∧ vz_top p_sym = p_sym.depth / 2) :=
  have hv : ValidParams p_sym := by
    refine ⟨by norm_num [p_sym], ?_, ?_, ?_, ?_, ?_, ?_, ?_⟩ <;> norm_num [p_sym]
  have h := c8_mirror_rings p_sym hv rfl rfl rfl
  ⟨⟨hv, rfl, rfl, rfl⟩, ⟨h.2.1, h.2.2.1⟩⟩

/-!
## Claim C9
-/

theorem uv_loop_strip_targets_lb (p : TubeParams) :
    ∀ w ∈ uv_loop_strip_writes p, 2 * (p.sectors + 1) ≤ w.1 := by
  unfold uv_loop_strip_writes
  split
  · next hel =>
    apply ringW_target_lb
    intro r hr
    simp only [List.mem_cons, List.not_mem_nil, or_false] at hr
    rcases hr with hr | hr | hr <;> subst hr <;>
      simp [vt_idx_side_lwr_ctrl, vt_idx_mid_strip, vt_idx_side_upp_ctrl, hel] <;>
      omega
  · intro w hw
    simp at hw

theorem len_vts_caps_spoke_lb (p : TubeParams)
    (hcaps : (flagsP p).use_caps = true)
    (hsp : (flagsP p).use_center_spoke = true) :
    2 * (p.sectors + 1) + 2 * p.sectors + 2 ≤
      len_vts p.sectors (flagsP p) (use_edge_loops p) := by
  simp only [len_vts, hcaps, hsp, if_true]
  split_ifs <;> omega

theorem uv_cap_targets_lb (p : TubeParams) :
    ∀ w ∈ uv_cap_writes p, 2 * (p.sectors + 1) ≤ w.1 := by
  unfold uv_cap_writes
  split
  · next hcaps =>
    intro w hw
    rcases List.mem_append.mp hw with hw' | hw'
    · rcases List.mem_append.mp hw' with hs | hrim
      · unfold uv_spoke_writes at hs
        rcases hsp : (flagsP p).use_center_spoke with _ | _
        · rw [hsp] at hs
          simp at hs
        · rw [hsp] at hs
          have hlen := len_vts_caps_spoke_lb p hcaps hsp
          simp only [if_true, List.mem_cons, List.not_mem_nil, or_false] at hs
          rcases hs with hs | hs <;> subst hs <;>
            simp only [vt_idx_btm_spoke, vt_idx_top_spoke, hcaps, hsp,
              Bool.and_self, if_true] <;> omega
      · revert hrim
        apply ringW_target_lb
        intro r hr
        simp only [List.mem_cons, List.not_mem_nil, or_false] at hr
        rcases hr with hr | hr <;> subst hr <;>
          simp only [vt_idx_btm_edge, vt_idx_top_edge, hcaps, if_true] <;>
          split_ifs <;> omega
    · revert hw'
      unfold uv_cap_ctrl_writes
      split
      · next hel =>
        apply ringW_target_lb
        intro r hr
        simp only [List.mem_cons, List.not_mem_nil, or_false] at hr
        rcases hr with hr | hr | hr | hr <;> subst hr <;>
          simp only [vt_idx_btm_fan, vt_idx_btm_ctrl, vt_idx_top_ctrl,
            vt_idx_top_fan, hcaps, hel, Bool.and_self, if_true] <;> omega
      · intro hw
        simp at hw
  · intro w hw
    simp at hw

theorem uv_strip_reads (p : TubeParams) :
    ∀ j ≤ p.sectors,
      (mkVts p).getD
          (vt_idx_btm_strip p.sectors (flagsP p) (use_edge_loops p) + j) (0, 0) =
        ((j : ℝ) * sectors_to_uv p, vts_min_y p) ∧
      (mkVts p).getD
          (vt_idx_top_strip p.sectors (flagsP p) (use_edge_loops p) + j) (0, 0) =
        ((j : ℝ) * sectors_to_uv p, vts_max_y) := by
  intro j hj
  have hlb1 := uv_loop_strip_targets_lb p
  have hlb2 := uv_cap_targets_lb p
  have hlen : 2 * (p.sectors + 1) ≤
      len_vts p.sectors (flagsP p) (use_edge_loops p) := by
    simp only [len_vts]
    split_ifs <;> omega
  have hb0 : vt_idx_btm_strip p.sectors (flagsP p) (use_edge_loops p) = 0 := rfl
  have ht0 : vt_idx_top_strip p.sectors (flagsP p) (use_edge_loops p) =
      p.sectors + 1 := rfl
  have hpair : (uv_strip_writes p).Pairwise (fun a b => a.1 ≠ b.1) := by
    unfold uv_strip_writes
    apply pairwise_ringW ?_ _ (le_refl _)
    refine List.pairwise_cons.mpr ⟨?_, List.pairwise_singleton _ _⟩
    intro b hb
    rw [List.mem_singleton] at hb
    subst hb
    exact Or.inl (by omega)
  constructor
  · rw [mkVts, uvWrites]
    simp only [applyWrites_append]
    rw [getD_applyWrites_of_ne _ (fun w hw => by have := hlb2 w hw; omega),
      getD_applyWrites_of_ne _ (fun w hw => by have := hlb1 w hw; omega)]
    refine getD_applyWrites_of_mem _ hpair ?_ ?_
    · exact mem_ringW (List.mem_cons_self _ _) (by omega)
    · rw [List.length_replicate]
      omega
  · rw [mkVts, uvWrites]
    simp only [applyWrites_append]
    rw [getD_applyWrites_of_ne _ (fun w hw => by have := hlb2 w hw; omega),
      getD_applyWrites_of_ne _ (fun w hw => by have := hlb1 w hw; omega)]
    refine getD_applyWrites_of_mem _ hpair ?_ ?_
    · exact mem_ringW (List.mem_cons_of_mem _ (List.mem_cons_self _ _)) (by omega)
    · rw [List.length_replicate]
      omega

theorem rim_targets_sep (p : TubeParams) (hcaps : (flagsP p).use_caps = true) :
    vt_idx_btm_edge p.sectors (flagsP p) (use_edge_loops p) + p.sectors ≤
      vt_idx_top_edge p.sectors (flagsP p) (use_edge_loops p) := by
  simp only [vt_idx_btm_edge, vt_idx_top_edge, hcaps, if_true]
  split_ifs <;> omega

theorem rim_below_len_vts (p : TubeParams) (hcaps : (flagsP p).use_caps = true) :
    vt_idx_top_edge p.sectors (flagsP p) (use_edge_loops p) + p.sectors ≤
      len_vts p.sectors (flagsP p) (use_edge_loops p) := by
  simp only [vt_idx_top_edge, len_vts, hcaps, if_true]
  split_ifs <;> omega

theorem uv_cap_ctrl_targets (p : TubeParams) (hcaps : (flagsP p).use_caps = true) :
    ∀ w ∈ uv_cap_ctrl_writes p,
      (5 * (p.sectors + 1) + p.sectors ≤ w.1 ∧
        w.1 < 5 * (p.sectors + 1) + 3 * p.sectors) ∨
      (5 * (p.sectors + 1) + 4 * p.sectors ≤ w.1 ∧
        w.1 < 5 * (p.sectors + 1) + 6 * p.sectors) := by
  unfold uv_cap_ctrl_writes
  split
  · next hel =>
    intro w hw
    rcases mem_ringW_elim hw with ⟨i, hi, r, hr, he⟩
    subst he
    simp only [List.mem_cons, List.not_mem_nil, or_false] at hr
    rcases hr with hr | hr | hr | hr <;> subst hr <;>
      simp only [vt_idx_btm_fan, vt_idx_btm_ctrl, vt_idx_top_ctrl, vt_idx_top_fan,
        hcaps, hel, Bool.and_self, if_true] <;> omega
  · intro w hw
    simp at hw

/-- With caps, the final UV buffer holds, at the rim-ring offsets, exactly
the two `vts_rad` disks around the cap centers (lines 648-659). -/
theorem uv_rim_reads (p : TubeParams) (hcaps : (flagsP p).use_caps = true) :
    ∀ i < p.sectors,
      (mkVts p).getD
          (vt_idx_btm_edge p.sectors (flagsP p) (use_edge_loops p) + i) (0, 0) =
        (vt_btm_center_x + (cartesian p i).1 * vts_rad,
          vt_btm_center_y + (cartesian p i).2 * vts_rad) ∧
      (mkVts p).getD
          (vt_idx_top_edge p.sectors (flagsP p) (use_edge_loops p) + i) (0, 0) =
        (vt_top_center_x + (cartesian p i).1 * vts_rad,
          vt_top_center_y + (cartesian p i).2 * vts_rad) := by
  intro i hi
  have hsep := rim_targets_sep p hcaps
  have hlen := rim_below_len_vts p hcaps
  have hctrl := uv_cap_ctrl_targets p hcaps
  have hC : uv_cap_writes p =
      (uv_spoke_writes p ++ uv_rim_writes p) ++ uv_cap_ctrl_writes p := by
    rw [uv_cap_writes, hcaps]
    simp
  have hpair : (uv_rim_writes p).Pairwise (fun a b => a.1 ≠ b.1) := by
    unfold uv_rim_writes
    apply pairwise_ringW ?_ _ (le_refl _)
    refine List.pairwise_cons.mpr ⟨?_, List.pairwise_singleton _ _⟩
    intro b hb
    rw [List.mem_singleton] at hb
    subst hb
    exact Or.inl hsep
  have hranges :
      (vt_idx_btm_edge p.sectors (flagsP p) (use_edge_loops p) =
          5 * (p.sectors + 1) ∧
        vt_idx_top_edge p.sectors (flagsP p) (use_edge_loops p) =
          5 * (p.sectors + 1) + 3 * p.sectors ∧ use_edge_loops p = true) ∨
      (vt_idx_btm_edge p.sectors (flagsP p) (use_edge_loops p) =
          2 * (p.sectors + 1) ∧
        vt_idx_top_edge p.sectors (flagsP p) (use_edge_loops p) =
          2 * (p.sectors + 1) + p.sectors ∧ use_edge_loops p = false) := by
    rcases hel : use_edge_loops p
    · refine Or.inr ⟨?_, ?_, rfl⟩ <;>
        simp only [vt_idx_btm_edge, vt_idx_top_edge, hcaps, hel, Bool.false_eq_true,
          if_true, if_false] <;> omega
    · refine Or.inl ⟨?_, ?_, rfl⟩ <;>
        simp only [vt_idx_btm_edge, vt_idx_top_edge, hcaps, hel, if_true] <;> omega
  have hnotctrl_b : ∀ w ∈ uv_cap_ctrl_writes p,
      w.1 ≠ vt_idx_btm_edge p.sectors (flagsP p) (use_edge_loops p) + i := by
    intro w hw
    rcases hranges with ⟨h1, h2, hel⟩ | ⟨h1, h2, hel⟩
    · have := hctrl w hw
      omega
    · rw [uv_cap_ctrl_writes, hel] at hw
      simp at hw
  have hnotctrl_t : ∀ w ∈ uv_cap_ctrl_writes p,
      w.1 ≠ vt_idx_top_edge p.sectors (flagsP p) (use_edge_loops p) + i := by
    intro w hw
    rcases hranges with ⟨h1, h2, hel⟩ | ⟨h1, h2, hel⟩
    · have := hctrl w hw
      omega
    · rw [uv_cap_ctrl_writes, hel] at hw
      simp at hw
  constructor
  · rw [mkVts, uvWrites, hC]
    simp only [applyWrites_append]
    rw [getD_applyWrites_of_ne _ hnotctrl_b]
    refine getD_applyWrites_of_mem _ hpair ?_ ?_
    · exact mem_ringW (List.mem_cons_self _ _) hi
    · simp only [length_applyWrites, List.length_replicate]
      omega
  · rw [mkVts, uvWrites, hC]
    simp only [applyWrites_append]
    rw [getD_applyWrites_of_ne _ hnotctrl_t]
    refine getD_applyWrites_of_mem _ hpair ?_ ?_
    · exact mem_ringW (List.mem_cons_of_mem _ (List.mem_cons_self _ _)) hi
    · simp only [length_applyWrites, List.length_replicate]
      omega

/-- Claim C9: when UV generation is requested, (a) the side strips sit at
`y = vts_min_y` (0.5 with caps, 0.0 with capStyle NONE) and `y = vts_max_y
= 1.0`, with `sectors + 1` x-samples `j / sectors` whose ends are 0 and 1
inclusive (the explicit seam); (b) the cap UV rim rings are circles of
radius 0.25: each sample sits at center + 0.25*(cos, sin), centers
(0.75, 0.25) for the bottom cap and (0.25, 0.25) for the top cap. -/
theorem c9_uv_layout (p : TubeParams) (hv : ValidParams p)
    (huv : p.calc_uvs = true) :
    ((flagsP p).use_caps = true → vts_min_y p = 1 / 2) ∧
    (p.cap_face_type = CapFaceType.NONE → vts_min_y p = 0) ∧
    vts_max_y = 1 ∧ vt_btm_center_x = 3 / 4 ∧ vt_btm_center_y = 1 / 4 ∧
    vt_top_center_x = 1 / 4 ∧ vt_top_center_y = 1 / 4 ∧ vts_rad = 1 / 4 ∧
    (∀ j ≤ p.sectors,
      (mkVts p).getD
          (vt_idx_btm_strip p.sectors (flagsP p) (use_edge_loops p) + j) (0, 0) =
        ((j : ℝ) * sectors_to_uv p, vts_min_y p) ∧
      (mkVts p).getD
          (vt_idx_top_strip p.sectors (flagsP p) (use_edge_loops p) + j) (0, 0) =
        ((j : ℝ) * sectors_to_uv p, vts_max_y)) ∧
    ((0 : ℝ) * sectors_to_uv p = 0 ∧ (p.sectors : ℝ) * sectors_to_uv p = 1) ∧
    ((flagsP p).use_caps = true → ∀ i < p.sectors,
      ((mkVts p).getD
          (vt_idx_btm_edge p.sectors (flagsP p) (use_edge_loops p) + i) (0, 0) =
        (vt_btm_center_x + (cartesian p i).1 * vts_rad,
          vt_btm_center_y + (cartesian p i).2 * vts_rad) ∧
      (((mkVts p).getD
          (vt_idx_btm_edge p.sectors (flagsP p) (use_edge_loops p) + i) (0, 0)).1 -
            vt_btm_center_x) ^ 2 +
        (((mkVts p).getD
          (vt_idx_btm_edge p.sectors (flagsP p) (use_edge_loops p) + i) (0, 0)).2 -
            vt_btm_center_y) ^ 2 = vts_rad ^ 2) ∧
      ((mkVts p).getD
          (vt_idx_top_edge p.sectors (flagsP p) (use_edge_loops p) + i) (0, 0) =
        (vt_top_center_x + (cartesian p i).1 * vts_rad,
          vt_top_center_y + (cartesian p i).2 * vts_rad) ∧
      (((mkVts p).getD
          (vt_idx_top_edge p.sectors (flagsP p) (use_edge_loops p) + i) (0, 0)).1 -
            vt_top_center_x) ^ 2 +
        (((mkVts p).getD
          (vt_idx_top_edge p.sectors (flagsP p) (use_edge_loops p) + i) (0, 0)).2 -
            vt_top_center_y) ^ 2 = vts_rad ^ 2)) := by
  have hs0 : (p.sectors : ℝ) ≠ 0 := Nat.cast_ne_zero.mpr (by have := hv.1; omega)
  refine ⟨?_, ?_, rfl, by norm_num [vt_btm_center_x], by norm_num [vt_btm_center_y],
    by norm_num [vt_top_center_x], by norm_num [vt_top_center_y],
    by norm_num [vts_rad], uv_strip_reads p, ⟨by ring, ?_⟩, ?_⟩
  · intro h
    rw [vts_min_y, h]
    norm_num
  · intro h
    have hcf : (flagsP p).use_caps = false := by
      rw [flagsP, h, effFlags_none]
      rfl
    rw [vts_min_y, hcf]
    norm_num
  · rw [sectors_to_uv]
    field_simp
  · intro hcaps i hi
    obtain ⟨h1, h2⟩ := uv_rim_reads p hcaps i hi
    refine ⟨⟨h1, ?_⟩, h2, ?_⟩
    · rw [h1]
      simp only [cartesian]
      linear_combination vts_rad ^ 2 *
        Real.sin_sq_add_cos_sq (p.orientation + i * (2 * Real.pi / p.sectors))
    · rw [h2]
      simp only [cartesian]
      linear_combination vts_rad ^ 2 *
        Real.sin_sq_add_cos_sq (p.orientation + i * (2 * Real.pi / p.sectors))

/-- A capped tube with UV generation requested. -/
noncomputable def p_uv : TubeParams :=
  ⟨8, 0, 1 / 2, 1 / 2, 3 / 2, 0, CapFaceType.NGON, 0, true⟩

theorem c9_uv_layout_witness :
    (ValidParams p_uv ∧ p_uv.calc_uvs = true ∧ (flagsP p_uv).use_caps = true) ∧
    vts_min_y p_uv = 1 / 2 ∧
    ((0 : ℝ) * sectors_to_uv p_uv = 0 ∧ (p_uv.sectors : ℝ) * sectors_to_uv p_uv = 1) :=
  have hv : ValidParams p_uv := by
    refine ⟨by norm_num [p_uv], ?_, ?_, ?_, ?_, ?_, ?_, ?_⟩ <;> norm_num [p_uv]
  have hcaps : (flagsP p_uv).use_caps = true := by decide
  have h := c9_uv_layout p_uv hv rfl
  ⟨⟨hv, rfl, hcaps⟩, h.1 hcaps, h.2.2.2.2.2.2.2.2.2.1⟩
